import Mathlib

/-!
# Verification of the `guid` package (26-byte GUID codec and signer)

A GUID is a 26-byte value laid out as
`[prefix(2)][timestamp(8)][fingerprint(4)][incr(4)][decr(4)][random(4)]`.
We embed the Go code shallowly: a GUID (and every Go byte slice / string)
is a `List Nat` of byte values, machine integers are `Nat`/`Int` with
explicit wrap-around where the Go code can overflow, and fallible
operations return `Option`/`Except`.  Loops whose bound is data-dependent
are given an explicit fuel argument that provably suffices on the whole
domain the Go code can reach, so that all definitions reduce in the kernel.
-/

namespace GuidSpec

/-- A Go byte slice / Go string: a list of byte values. -/
abbrev Bytes := List Nat

/-- Overlay the byte list `bs` onto `l` starting at index `i`
(models writing into the sub-slice `l[i:]`; Go writes in place,
our embedding returns the updated list). -/
def writeAt : Bytes → Nat → Bytes → Bytes
  | l, _, [] => l
  | l, i, b :: bs => writeAt (l.set i b) (i + 1) bs

/-- The Go slice expression `l[s:e]`. -/
def sliceL (l : Bytes) (s e : Nat) : Bytes := (l.drop s).take (e - s)

/-! ## `encoding/binary` varints

`binary.PutUvarint` emits base-128 groups, least significant first, with a
continuation bit; `binary.PutVarint` first applies the zig-zag transform.
The Go loop `for x >= 0x80` runs at most 9 times for a `uint64`; we give it
fuel 10, which is exact on all of `[0, 2^64)`. -/

/-- Fuelled body of `binary.PutUvarint` (the fuel-0 branch is unreachable
for fuel ≥ 10 on `uint64` inputs). -/
def putUvarintF : Nat → Nat → Bytes
  | 0, x => [x]
  | f + 1, x => if x < 128 then [x] else (x % 128 + 128) :: putUvarintF f (x / 128)

/-- `binary.PutUvarint`: the bytes written for `x`. -/
def putUvarint (x : Nat) : Bytes := putUvarintF 10 x

/-- The zig-zag transform from `binary.PutVarint`:
`ux := uint64(x) << 1; if x < 0 { ux = ^ux }`, written out for an `int64`. -/
def zigzag (x : Int) : Nat := if x < 0 then 2 * x.natAbs - 1 else 2 * x.toNat

/-- `binary.PutVarint`: the bytes written for a signed `x`. -/
def putVarint (x : Int) : Bytes := putUvarint (zigzag x)

/-- Core loop of `binary.Uvarint`: walks the buffer with absolute index `i`,
shift `s` and accumulator `x`; returns `(value, bytes-read)` with the Go
error conventions (`(0, 0)` on truncation, `(0, -(i+1))` on overflow). -/
def uvarintCore : Bytes → Nat → Nat → Nat → Nat × Int
  | [], _, _, _ => (0, 0)
  | b :: bs, i, s, x =>
    if i = 10 then (0, -((i : Int) + 1))
    else if b < 128 then
      (if i = 9 ∧ 1 < b then (0, -((i : Int) + 1)) else (x ||| b <<< s, (i : Int) + 1))
    else uvarintCore bs (i + 1) (s + 7) (x ||| (b &&& 127) <<< s)

/-- `binary.Uvarint`. -/
def uvarint (buf : Bytes) : Nat × Int := uvarintCore buf 0 0 0

/-- Inverse zig-zag from `binary.Varint`:
`x := int64(ux >> 1); if ux&1 != 0 { x = ^x }`. -/
def unzigzag (u : Nat) : Int := if u % 2 = 1 then -((u / 2 : Nat) : Int) - 1 else ((u / 2 : Nat) : Int)

/-- `binary.Varint`. -/
def varint (buf : Bytes) : Int × Int := ((unzigzag (uvarint buf).1), (uvarint buf).2)

/-- The value a `v, _ := binary.Varint(buf)` call keeps. -/
def varintVal (buf : Bytes) : Int := (varint buf).1

/-! ## GUID field setters / getters (`guid.go`) -/

/-- `GUID{}`: the all-zero GUID. -/
def zeroGuid : Bytes := List.replicate 26 0

/-- Modelled from the spec: the `filter` helper is not among the provided
source files (only its call sites in `guid.go` are).  Per §3/§4.1 of the
spec, every numeric field except the timestamp is "range-filtered to
`[0, 36^4 - 1]` (1,679,616)": values outside the range are reduced modulo
that bound, never rejected, so the result always lies in `[0, 1679616)`. -/
def filter (v : Int) : Int := v % 1679616

/-- Conversion to Go's `int32` (two's-complement wrap-around). -/
def toInt32 (v : Int) : Int := (v + 2 ^ 31) % 2 ^ 32 - 2 ^ 31

/-- Conversion to Go's `int64` (two's-complement wrap-around). -/
def toInt64 (v : Int) : Int := (v + 2 ^ 63) % 2 ^ 64 - 2 ^ 63

/-- `GUID.SetTime`: a `time.Time` is represented by its `UnixNano` value;
`time.Duration(nanos).Milliseconds()` is Go integer division by 10^6
(truncation toward zero), then the varint goes into bytes `[2:10]`. -/
def SetTime (g : Bytes) (nanos : Int) : Bytes :=
  writeAt g 2 (putVarint (nanos.tdiv 1000000))

/-- `GUID.Time` as its `UnixNano` value: `time.Unix(0, msec*1e6)`
(the product wraps as an `int64`). -/
def TimeNanos (g : Bytes) : Int := toInt64 (varintVal (sliceL g 2 10) * 1000000)

/-- `GUID.SetFingerprint`. -/
def SetFingerprint (g : Bytes) (v : Int) : Bytes :=
  writeAt g 10 (putVarint (filter v))

/-- `GUID.Fingerprint`. -/
def Fingerprint (g : Bytes) : Int := toInt32 (varintVal (sliceL g 10 14))

/-- `GUID.SetCounters`. -/
def SetCounters (g : Bytes) (incr decr : Int) : Bytes :=
  writeAt (writeAt g 14 (putVarint (filter incr))) 18 (putVarint (filter decr))

/-- `GUID.Counters`. -/
def Counters (g : Bytes) : Int × Int :=
  (toInt32 (varintVal (sliceL g 14 18)), toInt32 (varintVal (sliceL g 18 22)))

/-- `GUID.SetRandom`. -/
def SetRandom (g : Bytes) (v : Int) : Bytes :=
  writeAt g 22 (putVarint (filter v))

/-- `GUID.Random`. -/
def RandomVal (g : Bytes) : Int := toInt32 (varintVal (sliceL g 22 26))

/-! ## Base-36 formatting (`strconv.FormatInt(_, 36)`) -/

/-- The base-36 digit byte: `'0'..'9'` then `'a'..'z'`. -/
def digit36 (d : Nat) : Nat := if d < 10 then 48 + d else 87 + d

/-- Fuelled digit loop of `strconv.FormatInt` for a natural number
(most significant digit first; fuel 16 covers all of `[0, 36^16)`,
far beyond the `int64` range). -/
def fmtNat36F : Nat → Nat → Bytes
  | 0, n => [digit36 n]
  | f + 1, n => if n < 36 then [digit36 n] else fmtNat36F f (n / 36) ++ [digit36 (n % 36)]

/-- Base-36 digits of a natural number. -/
def fmtNat36 (n : Nat) : Bytes := fmtNat36F 16 n

/-- `strconv.FormatInt(v, 36)` on an `int64`: a leading `'-'` for negative
values, then the base-36 digits of the absolute value. -/
def formatInt36 (v : Int) : Bytes :=
  if v < 0 then 45 :: fmtNat36 v.natAbs else fmtNat36 v.toNat

/-- Modelled from the spec: the `leftPad` helper is not among the provided
source files (only its call sites in `guid.go` are).  Per §4.1 of the spec,
field text is "left-padding with the zero-digit character" up to the field
width. -/
def leftPad (bs : Bytes) (n : Nat) : Bytes := List.replicate (n - bs.length) 48 ++ bs

/-- `GUID.String`: two raw prefix bytes, then the five varint-decoded
fields formatted in base 36 and left-padded to widths 8, 4, 4, 4, 4. -/
def GUID.String (g : Bytes) : Bytes :=
  g.getD 0 0 :: g.getD 1 0 ::
    (leftPad (formatInt36 (varintVal (sliceL g 2 10))) 8 ++
      (leftPad (formatInt36 (varintVal (sliceL g 10 14))) 4 ++
        (leftPad (formatInt36 (varintVal (sliceL g 14 18))) 4 ++
          (leftPad (formatInt36 (varintVal (sliceL g 18 22))) 4 ++
            leftPad (formatInt36 (varintVal (sliceL g 22 26))) 4))))

/-- `GUID.Slug`: the bytes of `GUID.String` at the twelve fixed
0-indexed positions 6,7,8,9,16,17,20,21,22,23,24,25. -/
def Slug (g : Bytes) : Bytes :=
  let gg := GUID.String g
  [gg.getD 6 0, gg.getD 7 0, gg.getD 8 0, gg.getD 9 0,
    gg.getD 16 0, gg.getD 17 0, gg.getD 20 0, gg.getD 21 0,
    gg.getD 22 0, gg.getD 23 0, gg.getD 24 0, gg.getD 25 0]

/-! ## Base-36 parsing (`strconv.ParseInt(_, 36, 64)`) -/

/-- Digit value of a byte for base 36: `0-9`, `a-z`, `A-Z`
(case-insensitive), anything else is a syntax error. -/
def digVal36 (b : Nat) : Option Nat :=
  if 48 ≤ b ∧ b ≤ 57 then some (b - 48)
  else if 97 ≤ b ∧ b ≤ 122 then some (b - 87)
  else if 65 ≤ b ∧ b ≤ 90 then some (b - 55)
  else none

/-- The digit-accumulation loop of `strconv.ParseUint` (base 36).
Go additionally fails as soon as the accumulator would pass `2^64 - 1`;
on the ≤ 8-digit substrings this code parses that per-digit cutoff can
never fire before the final range check, which `parseInt36` performs. -/
def parseDigits36 : Bytes → Nat → Option Nat
  | [], acc => some acc
  | b :: bs, acc =>
    match digVal36 b with
    | some d => if d < 36 then parseDigits36 bs (acc * 36 + d) else none
    | none => none

/-- `strconv.ParseInt(s, 36, 64)`: optional sign, at least one digit, and
the `int64` range check (`un >= 1<<63` positive, `un > 1<<63` negative). -/
def parseInt36 : Bytes → Option Int
  | [] => none
  | b :: bs =>
    if b = 43 then
      match bs with
      | [] => none
      | _ => (parseDigits36 bs 0).bind fun n =>
          if n < 2 ^ 63 then some (n : Int) else none
    else if b = 45 then
      match bs with
      | [] => none
      | _ => (parseDigits36 bs 0).bind fun n =>
          if n ≤ 2 ^ 63 then some (-(n : Int)) else none
    else
      (parseDigits36 (b :: bs) 0).bind fun n =>
        if n < 2 ^ 63 then some (n : Int) else none

/-- The errors `guid.Parse` can return. -/
inductive ParseErr where
  | invalidLength
  | invalidTime
  | invalidFingerprint
  | invalidIncr
  | invalidDecr
  | invalidRandom
deriving DecidableEq

/-- `guid.Parse`: exactly 26 bytes, prefix copied verbatim, then each
field substring parsed in base 36 and re-encoded through the
corresponding setter (with Go's `int32` conversions at the call sites). -/
def Parse (input : Bytes) : Except ParseErr Bytes :=
  if input.length ≠ 26 then .error .invalidLength
  else
    let g0 := (zeroGuid.set 0 (input.getD 0 0)).set 1 (input.getD 1 0)
    match parseInt36 (sliceL input 2 10) with
    | none => .error .invalidTime
    | some t =>
      let g1 := SetTime g0 (t * 1000000)
      match parseInt36 (sliceL input 10 14) with
      | none => .error .invalidFingerprint
      | some fp =>
        let g2 := SetFingerprint g1 (toInt32 fp)
        match parseInt36 (sliceL input 14 18) with
        | none => .error .invalidIncr
        | some ic =>
          match parseInt36 (sliceL input 18 22) with
          | none => .error .invalidDecr
          | some dc =>
            let g3 := SetCounters g2 (toInt32 ic) (toInt32 dc)
            match parseInt36 (sliceL input 22 26) with
            | none => .error .invalidRandom
            | some r => .ok (SetRandom g3 (toInt32 r))

/-! ## SHA-256 (FIPS 180-4, as computed by Go's `crypto/sha256`)

32-bit words are `Nat`s kept below `2^32` with explicit `% 2^32`
at every addition; rotations/shifts use the core bitwise operations. -/

/-- Right rotation of a 32-bit word. -/
def rotr32 (n w : Nat) : Nat := ((w >>> n) ||| (w <<< (32 - n))) % 2 ^ 32

/-- Bitwise complement of a 32-bit word. -/
def not32 (w : Nat) : Nat := w ^^^ (2 ^ 32 - 1)

/-- The SHA-256 round constants. -/
def sha256K : List Nat :=
  [1116352408, 1899447441, 3049323471, 3921009573, 961987163, 1508970993,
   2453635748, 2870763221, 3624381080, 310598401, 607225278, 1426881987,
   1925078388, 2162078206, 2614888103, 3248222580, 3835390401, 4022224774,
   264347078, 604807628, 770255983, 1249150122, 1555081692, 1996064986,
   2554220882, 2821834349, 2952996808, 3210313671, 3336571891, 3584528711,
   113926993, 338241895, 666307205, 773529912, 1294757372, 1396182291,
   1695183700, 1986661051, 2177026350, 2456956037, 2730485921, 2820302411,
   3259730800, 3345764771, 3516065817, 3600352804, 4094571909, 275423344,
   430227734, 506948616, 659060556, 883997877, 958139571, 1322822218,
   1537002063, 1747873779, 1955562222, 2024104815, 2227730452, 2361852424,
   2428436474, 2756734187, 3204031479, 3329325298]

/-- SHA-256 message padding: a `0x80` byte, zeros to 56 mod 64, and the
bit length as a 64-bit big-endian integer. -/
def sha256Pad (msg : Bytes) : Bytes :=
  let L := msg.length * 8
  msg ++ (128 :: List.replicate ((119 - msg.length % 64) % 64) 0 ++
    [L / 2 ^ 56 % 256, L / 2 ^ 48 % 256, L / 2 ^ 40 % 256, L / 2 ^ 32 % 256,
     L / 2 ^ 24 % 256, L / 2 ^ 16 % 256, L / 2 ^ 8 % 256, L % 256])

/-- The big-endian 32-bit word at word index `i` of a 64-byte block. -/
def be32At (l : Bytes) (i : Nat) : Nat :=
  l.getD (4 * i) 0 * 2 ^ 24 + l.getD (4 * i + 1) 0 * 2 ^ 16 +
    l.getD (4 * i + 2) 0 * 2 ^ 8 + l.getD (4 * i + 3) 0

/-- Message-schedule extension: appends one word per step. -/
def extendSchedule : Nat → List Nat → List Nat
  | 0, w => w
  | f + 1, w =>
    let s0 := rotr32 7 (w.getD (w.length - 15) 0) ^^^ rotr32 18 (w.getD (w.length - 15) 0) ^^^
      (w.getD (w.length - 15) 0) >>> 3
    let s1 := rotr32 17 (w.getD (w.length - 2) 0) ^^^ rotr32 19 (w.getD (w.length - 2) 0) ^^^
      (w.getD (w.length - 2) 0) >>> 10
    extendSchedule f
      (w ++ [(s1 + w.getD (w.length - 7) 0 + s0 + w.getD (w.length - 16) 0) % 2 ^ 32])

/-- The 64-word message schedule of one block. -/
def schedule (block : Bytes) : List Nat :=
  extendSchedule 48 ((List.range 16).map (be32At block))

/-- The eight working variables of the compression function. -/
structure SHAState where
  a : Nat
  b : Nat
  c : Nat
  d : Nat
  e : Nat
  f : Nat
  g : Nat
  h : Nat

/-- One SHA-256 round with constant/schedule pair `kw`. -/
def sha256Round (st : SHAState) (kw : Nat × Nat) : SHAState :=
  let S1 := rotr32 6 st.e ^^^ rotr32 11 st.e ^^^ rotr32 25 st.e
  let ch := (st.e &&& st.f) ^^^ (not32 st.e &&& st.g)
  let t1 := (st.h + S1 + ch + kw.1 + kw.2) % 2 ^ 32
  let S0 := rotr32 2 st.a ^^^ rotr32 13 st.a ^^^ rotr32 22 st.a
  let maj := (st.a &&& st.b) ^^^ (st.a &&& st.c) ^^^ (st.b &&& st.c)
  let t2 := (S0 + maj) % 2 ^ 32
  ⟨(t1 + t2) % 2 ^ 32, st.a, st.b, st.c, (st.d + t1) % 2 ^ 32, st.e, st.f, st.g⟩

/-- Compress one 64-byte block into the running hash value. -/
def compressBlock (block : Bytes) (hs : List Nat) : List Nat :=
  let w := schedule block
  let st0 : SHAState := ⟨hs.getD 0 0, hs.getD 1 0, hs.getD 2 0, hs.getD 3 0,
    hs.getD 4 0, hs.getD 5 0, hs.getD 6 0, hs.getD 7 0⟩
  let st := (sha256K.zip w).foldl sha256Round st0
  [(hs.getD 0 0 + st.a) % 2 ^ 32, (hs.getD 1 0 + st.b) % 2 ^ 32,
   (hs.getD 2 0 + st.c) % 2 ^ 32, (hs.getD 3 0 + st.d) % 2 ^ 32,
   (hs.getD 4 0 + st.e) % 2 ^ 32, (hs.getD 5 0 + st.f) % 2 ^ 32,
   (hs.getD 6 0 + st.g) % 2 ^ 32, (hs.getD 7 0 + st.h) % 2 ^ 32]

/-- Fuelled block loop (one step per 64-byte block; the padded message is
never longer than `msg.length + 72` bytes, so fuel `msg.length + 2`
always suffices). -/
def sha256Loop : Nat → Bytes → List Nat → List Nat
  | 0, _, hs => hs
  | f + 1, l, hs =>
    match l with
    | [] => hs
    | _ => sha256Loop f (l.drop 64) (compressBlock (l.take 64) hs)

/-- The SHA-256 initial hash value. -/
def sha256H0 : List Nat :=
  [1779033703, 3144134277, 1013904242, 2773480762, 1359893119, 2600822924,
   528734635, 1541459225]

/-- `sha256.Sum256`: the 32-byte digest (big-endian serialization of the
eight final words). -/
def sha256 (msg : Bytes) : Bytes :=
  (sha256Loop (msg.length + 2) (sha256Pad msg) sha256H0).flatMap fun w =>
    [w / 2 ^ 24 % 256, w / 2 ^ 16 % 256, w / 2 ^ 8 % 256, w % 256]

/-! ## Hex encoding (`encoding/hex`) -/

/-- Lower-case hex digit byte. -/
def hexDigit (d : Nat) : Nat := if d < 10 then 48 + d else 87 + d

/-- `hex.Encode` of a byte list. -/
def hexEncode (l : Bytes) : Bytes := l.flatMap fun b => [hexDigit (b / 16), hexDigit (b % 16)]

/-- Hex digit value (`0-9`, `a-f`, `A-F`). -/
def hexDigVal (b : Nat) : Option Nat :=
  if 48 ≤ b ∧ b ≤ 57 then some (b - 48)
  else if 97 ≤ b ∧ b ≤ 102 then some (b - 87)
  else if 65 ≤ b ∧ b ≤ 70 then some (b - 55)
  else none

/-- `hex.DecodeString`: fails on an odd length or any non-hex byte. -/
def hexDecode : Bytes → Option Bytes
  | [] => some []
  | [_] => none
  | a :: b :: rest =>
    match hexDigVal a, hexDigVal b, hexDecode rest with
    | some x, some y, some r => some ((16 * x + y) :: r)
    | _, _, _ => none

/-! ## The signer (`GUID.Sign` / `GUID.DidSign`, `src/unnamed/part_000`) -/

/-- The OR-fold loop of `GUID.Sign`: `for i := 2; i < 14; i++` with `j`
walking `31, 30, …, 20`; each pass does `sum[i-2] |= g[i]` and then
`sum[j] |= g[j-6]`.  The fuel is the fixed iteration count 12. -/
def signLoop (g : Bytes) : Nat → Nat → Nat → Bytes → Bytes
  | 0, _, _, sum => sum
  | k + 1, i, j, sum =>
    let s1 := sum.set (i - 2) (sum.getD (i - 2) 0 ||| g.getD i 0)
    let s2 := s1.set j (s1.getD j 0 ||| g.getD (j - 6) 0)
    signLoop g k (i + 1) (j - 1) s2

/-- The folded digest of `GUID.Sign`: the loop above, then the prefix
folds `sum[12] |= g[0]` and `sum[13] |= g[1]`. -/
def signSum (g sum : Bytes) : Bytes :=
  let s := signLoop g 12 2 31 sum
  let s' := s.set 12 (s.getD 12 0 ||| g.getD 0 0)
  s'.set 13 (s'.getD 13 0 ||| g.getD 1 0)

/-- `GUID.Sign`: `nil` on empty input, otherwise the lower-case hex
encoding of the folded SHA-256 digest. -/
def Sign (g d : Bytes) : Option Bytes :=
  if d = [] then none else some (hexEncode (signSum g (sha256 d)))

/-- The check loop of `GUID.DidSign` (12 passes, mirroring `signLoop`;
Go's early `return false` equals the short-circuit conjunction). -/
def didSignLoop (g sum : Bytes) : Nat → Nat → Nat → Bool
  | 0, _, _ => true
  | k + 1, i, j =>
    if sum.getD (i - 2) 0 &&& g.getD i 0 ≠ g.getD i 0 then false
    else if sum.getD j 0 &&& g.getD (j - 6) 0 ≠ g.getD (j - 6) 0 then false
    else didSignLoop g sum k (i + 1) (j - 1)

/-- `GUID.DidSign`: hex-decode, require exactly 32 bytes, then check that
every folded GUID byte is a bit-subset of the corresponding digest byte
(prefix positions 12/13 first, then the 12-pass loop). -/
def DidSign (g s : Bytes) : Bool :=
  match hexDecode s with
  | none => false
  | some sum =>
    if sum.length ≠ 32 then false
    else if sum.getD 12 0 &&& g.getD 0 0 ≠ g.getD 0 0 then false
    else if sum.getD 13 0 &&& g.getD 1 0 ≠ g.getD 1 0 then false
    else didSignLoop g sum 12 2 31

/-! ## List and bit helper lemmas -/

theorem land_lor_self (x y : Nat) : (x ||| y) &&& y = y := by
  apply Nat.eq_of_testBit_eq
  intro i
  simp only [Nat.testBit_land, Nat.testBit_lor]
  cases hx : x.testBit i <;> cases hy : y.testBit i <;> simp

theorem land_127 (b : Nat) : b &&& 127 = b % 128 := by
  apply Nat.eq_of_testBit_eq
  intro i
  have h7 : (127 : Nat) = 2 ^ 7 - 1 := by norm_num
  have h8 : (128 : Nat) = 2 ^ 7 := by norm_num
  rw [Nat.testBit_land, h7, Nat.testBit_two_pow_sub_one, h8, Nat.testBit_mod_two_pow]
  rw [Bool.and_comm]

theorem cons_writeAt (bs : Bytes) : ∀ (l : Bytes) (a i : Nat),
    writeAt (a :: l) (i + 1) bs = a :: writeAt l i bs := by
  induction bs with
  | nil => intro l a i; rfl
  | cons b bs ih =>
    intro l a i
    show writeAt ((a :: l).set (i + 1) b) (i + 2) bs = a :: writeAt (l.set i b) (i + 1) bs
    exact ih (l.set i b) a (i + 1)

theorem writeAt_zero (bs : Bytes) : ∀ (l : Bytes), bs.length ≤ l.length →
    writeAt l 0 bs = bs ++ l.drop bs.length := by
  induction bs with
  | nil => intro l _; simp [writeAt]
  | cons b bs ih =>
    intro l hl
    match l with
    | x :: l' =>
      show writeAt ((x :: l').set 0 b) 1 bs = (b :: bs) ++ (x :: l').drop (bs.length + 1)
      show writeAt (b :: l') 1 bs = (b :: bs) ++ l'.drop bs.length
      rw [show (1 : Nat) = 0 + 1 from rfl, cons_writeAt]
      simp only [List.cons_append, List.cons.injEq, true_and]
      exact ih l' (by simpa using hl)

theorem writeAt_append (pre : Bytes) : ∀ (rest bs : Bytes),
    writeAt (pre ++ rest) pre.length bs = pre ++ writeAt rest 0 bs := by
  induction pre with
  | nil => intro rest bs; simp
  | cons a pre ih =>
    intro rest bs
    show writeAt (a :: (pre ++ rest)) (pre.length + 1) bs = a :: (pre ++ writeAt rest 0 bs)
    rw [cons_writeAt, ih]

theorem length_writeAt (bs : Bytes) : ∀ (l : Bytes) (i : Nat),
    (writeAt l i bs).length = l.length := by
  induction bs with
  | nil => intro l i; rfl
  | cons b bs ih => intro l i; show (writeAt (l.set i b) (i + 1) bs).length = _
                    rw [ih, List.length_set]

theorem getD_writeAt_outside (bs : Bytes) : ∀ (l : Bytes) (i j d : Nat),
    (j < i ∨ i + bs.length ≤ j) → (writeAt l i bs).getD j d = l.getD j d := by
  induction bs with
  | nil => intro l i j d _; rfl
  | cons b bs ih =>
    intro l i j d h
    simp only [List.length_cons] at h
    show (writeAt (l.set i b) (i + 1) bs).getD j d = l.getD j d
    rw [ih (l.set i b) (i + 1) j d (by omega)]
    have hij : i ≠ j := by omega
    rw [List.getD_eq_getElem?_getD, List.getD_eq_getElem?_getD,
      List.getElem?_set_ne hij]

theorem sliceL_mid (pre mid suf : Bytes) :
    sliceL (pre ++ (mid ++ suf)) pre.length (pre.length + mid.length) = mid := by
  unfold sliceL
  rw [List.drop_left, Nat.add_sub_cancel_left, List.take_left]

/-! ## Varint round-trip -/

theorem putUvarintF_length_le : ∀ (f x k : Nat), 1 ≤ k → x < 128 ^ k → k ≤ f + 1 →
    (putUvarintF f x).length ≤ k := by
  intro f
  induction f with
  | zero => intro x k h1 _ _; simp [putUvarintF]; omega
  | succ f ih =>
    intro x k h1 hx _
    unfold putUvarintF
    split
    · simp; omega
    · rename_i hge
      push_neg at hge
      have hk2 : 2 ≤ k := by
        by_contra hlt
        have : k = 1 := by omega
        subst this
        simp [pow_one] at hx
        omega
      have hdiv : x / 128 < 128 ^ (k - 1) := by
        have h128 : 0 < (128 : Nat) := by norm_num
        rw [Nat.div_lt_iff_lt_mul h128]
        calc x < 128 ^ k := hx
        _ = 128 ^ (k - 1) * 128 := by
              rw [← pow_succ]
              congr 1
              omega
      have := ih (x / 128) (k - 1) (by omega) hdiv (by omega)
      simp only [List.length_cons]
      omega

theorem shiftLeft_split7 (x s : Nat) :
    (x % 128) <<< s ||| (x / 128) <<< (s + 7) = x <<< s := by
  have h128 : (128 : Nat) = 2 ^ 7 := by norm_num
  apply Nat.eq_of_testBit_eq
  intro i
  simp only [Nat.testBit_lor, Nat.testBit_shiftLeft, h128, Nat.testBit_mod_two_pow]
  have hdiv : x / 2 ^ 7 = x >>> 7 := (Nat.shiftRight_eq_div_pow x 7).symm
  rw [hdiv]
  rcases lt_or_ge i s with h | h
  · have h1 : ¬ (i ≥ s) := by omega
    have h2 : ¬ (i ≥ s + 7) := by omega
    simp [h1, h2]
  · rcases lt_or_ge i (s + 7) with h' | h'
    · have h2 : ¬ (i ≥ s + 7) := by omega
      have h3 : i - s < 7 := by omega
      simp [h, h2, h3]
    · have h3 : ¬ (i - s < 7) := by omega
      rw [Nat.testBit_shiftRight]
      have h4 : 7 + (i - (s + 7)) = i - s := by omega
      simp [h, h', h3, h4]

theorem uvarintCore_putUvarintF : ∀ (f x : Nat) (rest : Bytes) (i s acc : Nat),
    x < 128 ^ (f + 1) → i + (putUvarintF f x).length ≤ 9 →
    uvarintCore (putUvarintF f x ++ rest) i s acc =
      (acc ||| x <<< s, (i : Int) + (putUvarintF f x).length) := by
  intro f
  induction f with
  | zero =>
    intro x rest i s acc hx hlen
    simp only [putUvarintF, List.length_cons, List.length_nil] at hlen ⊢
    show uvarintCore (x :: rest) i s acc = _
    unfold uvarintCore
    have hi10 : i ≠ 10 := by omega
    have hx128 : x < 128 := by simpa using hx
    have hguard : ¬ (i = 9 ∧ 1 < x) := by omega
    simp [hi10, hx128, hguard]
  | succ f ih =>
    intro x rest i s acc hx hlen
    rcases lt_or_ge x 128 with hsmall | hbig
    · simp only [putUvarintF, if_pos hsmall, List.length_cons, List.length_nil] at hlen ⊢
      show uvarintCore (x :: rest) i s acc = _
      unfold uvarintCore
      have hi10 : i ≠ 10 := by omega
      have hguard : ¬ (i = 9 ∧ 1 < x) := by omega
      simp [hi10, hsmall, hguard]
    · have hunf : putUvarintF (f + 1) x = (x % 128 + 128) :: putUvarintF f (x / 128) := by
        show (if x < 128 then [x] else (x % 128 + 128) :: putUvarintF f (x / 128)) = _
        rw [if_neg (by omega)]
      rw [hunf] at hlen ⊢
      simp only [List.length_cons] at hlen ⊢
      show uvarintCore ((x % 128 + 128) :: (putUvarintF f (x / 128) ++ rest)) i s acc = _
      unfold uvarintCore
      have hi10 : i ≠ 10 := by omega
      have hb : ¬ (x % 128 + 128 < 128) := by omega
      rw [if_neg hi10, if_neg hb]
      have hdiv : x / 128 < 128 ^ (f + 1) := by
        have h128 : 0 < (128 : Nat) := by norm_num
        rw [Nat.div_lt_iff_lt_mul h128]
        calc x < 128 ^ (f + 1 + 1) := hx
        _ = 128 ^ (f + 1) * 128 := by rw [pow_succ]
      rw [ih (x / 128) rest (i + 1) (s + 7) (acc ||| (x % 128 + 128 &&& 127) <<< s) hdiv
        (by omega)]
      have hmask : x % 128 + 128 &&& 127 = x % 128 := by
        rw [land_127]
        omega
      rw [hmask]
      rw [Prod.mk.injEq]
      refine ⟨?_, ?_⟩
      · rw [Nat.lor_assoc, shiftLeft_split7]
      · push_cast
        ring

theorem uvarint_putUvarint (x : Nat) (rest : Bytes) (hx : x < 128 ^ 8) :
    uvarint (putUvarint x ++ rest) = (x, ((putUvarint x).length : Int)) := by
  have hlen : (putUvarintF 10 x).length ≤ 8 :=
    putUvarintF_length_le 10 x 8 (by norm_num) hx (by norm_num)
  have h := uvarintCore_putUvarintF 10 x rest 0 0 0
    (lt_of_lt_of_le hx (by norm_num)) (by omega)
  show uvarintCore (putUvarintF 10 x ++ rest) 0 0 0 = (x, ((putUvarintF 10 x).length : Int))
  rw [h]
  simp

theorem unzigzag_zigzag (v : Int) : unzigzag (zigzag v) = v := by
  rcases lt_or_ge v 0 with h | h
  · have hz : zigzag v = 2 * v.natAbs - 1 := by unfold zigzag; rw [if_pos h]
    have ha : 1 ≤ v.natAbs := by omega
    rw [hz]
    unfold unzigzag
    rw [if_pos (by omega)]
    have hdivv : (2 * v.natAbs - 1) / 2 = v.natAbs - 1 := by omega
    rw [hdivv]
    omega
  · have hz : zigzag v = 2 * v.toNat := by unfold zigzag; rw [if_neg (by omega)]
    rw [hz]
    unfold unzigzag
    rw [if_neg (by omega)]
    have hdivv : (2 * v.toNat) / 2 = v.toNat := by omega
    rw [hdivv]
    omega

theorem varintVal_putVarint (v : Int) (rest : Bytes) (h : zigzag v < 128 ^ 8) :
    varintVal (putVarint v ++ rest) = v := by
  unfold varintVal varint putVarint
  rw [uvarint_putUvarint _ _ h]
  exact unzigzag_zigzag v

theorem putVarint_length_le (v : Int) (k : Nat) (h1 : 1 ≤ k) (hk : k ≤ 11)
    (h : zigzag v < 128 ^ k) : (putVarint v).length ≤ k :=
  putUvarintF_length_le 10 _ k h1 h (by omega)

theorem zigzag_le (v : Int) : zigzag v ≤ 2 * v.natAbs := by
  unfold zigzag
  split <;> omega

/-! ## Base-36 format / parse round-trip -/

theorem fmtNat36F_length_le : ∀ (f n k : Nat), 1 ≤ k → n < 36 ^ k → k ≤ f + 1 →
    (fmtNat36F f n).length ≤ k := by
  intro f
  induction f with
  | zero => intro n k h1 _ _; simp [fmtNat36F]; omega
  | succ f ih =>
    intro n k h1 hn _
    unfold fmtNat36F
    split
    · simp; omega
    · rename_i hge
      push_neg at hge
      have hk2 : 2 ≤ k := by
        by_contra hlt
        have : k = 1 := by omega
        subst this
        simp [pow_one] at hn
        omega
      have hdiv : n / 36 < 36 ^ (k - 1) := by
        have h36 : 0 < (36 : Nat) := by norm_num
        rw [Nat.div_lt_iff_lt_mul h36]
        calc n < 36 ^ k := hn
        _ = 36 ^ (k - 1) * 36 := by
              rw [← pow_succ]
              congr 1
              omega
      have := ih (n / 36) (k - 1) (by omega) hdiv (by omega)
      simp only [List.length_append, List.length_cons, List.length_nil]
      omega

theorem fmtNat36F_head_digit : ∀ (f n : Nat), ∃ d bs, fmtNat36F f n = digit36 d :: bs := by
  intro f
  induction f with
  | zero => intro n; exact ⟨n, [], rfl⟩
  | succ f ih =>
    intro n
    unfold fmtNat36F
    split
    · exact ⟨n, [], rfl⟩
    · obtain ⟨d, bs, hd⟩ := ih (n / 36)
      exact ⟨d, bs ++ [digit36 (n % 36)], by rw [hd]; rfl⟩

theorem fmtNat36F_bytes : ∀ (f n b : Nat), b ∈ fmtNat36F f n → ∃ d, b = digit36 d := by
  intro f
  induction f with
  | zero =>
    intro n b hb
    simp only [fmtNat36F, List.mem_singleton] at hb
    exact ⟨n, hb⟩
  | succ f ih =>
    intro n b hb
    unfold fmtNat36F at hb
    split at hb
    · simp only [List.mem_singleton] at hb
      exact ⟨n, hb⟩
    · rw [List.mem_append] at hb
      rcases hb with hb | hb
      · exact ih (n / 36) b hb
      · simp only [List.mem_singleton] at hb
        exact ⟨n % 36, hb⟩

theorem digit36_ne_sign (d : Nat) : digit36 d ≠ 43 ∧ digit36 d ≠ 45 := by
  unfold digit36
  split <;> omega

theorem digVal36_digit36 (d : Nat) (h : d < 36) : digVal36 (digit36 d) = some d := by
  rcases lt_or_ge d 10 with h10 | h10
  · have hd : digit36 d = 48 + d := by unfold digit36; rw [if_pos h10]
    rw [hd]
    unfold digVal36
    rw [if_pos (by omega)]
    congr 1
    omega
  · have hd : digit36 d = 87 + d := by unfold digit36; rw [if_neg (by omega)]
    rw [hd]
    unfold digVal36
    rw [if_neg (by omega), if_pos (by omega)]
    congr 1
    omega

/-- One-step unfolding of the digit loop on a cons cell. -/
theorem parseDigits36_cons (b : Nat) (bs : Bytes) (acc : Nat) :
    parseDigits36 (b :: bs) acc =
      match digVal36 b with
      | some d => if d < 36 then parseDigits36 bs (acc * 36 + d) else none
      | none => none := rfl

theorem parseDigits36_append (xs : Bytes) : ∀ (ys : Bytes) (acc : Nat),
    parseDigits36 (xs ++ ys) acc =
      match parseDigits36 xs acc with
      | some m => parseDigits36 ys m
      | none => none := by
  induction xs with
  | nil => intro ys acc; rfl
  | cons b xs ih =>
    intro ys acc
    rw [List.cons_append, parseDigits36_cons, parseDigits36_cons]
    match hb : digVal36 b with
    | some d =>
      simp only
      by_cases hd36 : d < 36
      · rw [if_pos hd36, if_pos hd36]
        exact ih ys (acc * 36 + d)
      · rw [if_neg hd36, if_neg hd36]
    | none => simp only

theorem parseDigits36_fmt : ∀ (f n acc : Nat), n < 36 ^ (f + 1) →
    parseDigits36 (fmtNat36F f n) acc =
      some (acc * 36 ^ (fmtNat36F f n).length + n) := by
  intro f
  induction f with
  | zero =>
    intro n acc hn
    have h36 : n < 36 := by simpa using hn
    show parseDigits36 [digit36 n] acc = some (acc * 36 ^ (fmtNat36F 0 n).length + n)
    rw [parseDigits36_cons, digVal36_digit36 n h36]
    simp only [if_pos h36]
    show some (acc * 36 + n) = _
    have hlen : (fmtNat36F 0 n).length = 1 := rfl
    rw [hlen, pow_one]
  | succ f ih =>
    intro n acc hn
    rcases lt_or_ge n 36 with hsmall | hbig
    · have hunf : fmtNat36F (f + 1) n = [digit36 n] := by
        show (if n < 36 then [digit36 n] else _) = _
        rw [if_pos hsmall]
      rw [hunf]
      rw [parseDigits36_cons, digVal36_digit36 n hsmall]
      simp only [if_pos hsmall]
      show some (acc * 36 + n) = _
      simp [pow_one]
    · have hunf : fmtNat36F (f + 1) n = fmtNat36F f (n / 36) ++ [digit36 (n % 36)] := by
        show (if n < 36 then [digit36 n] else _) = _
        rw [if_neg (by omega)]
      rw [hunf]
      have hdiv : n / 36 < 36 ^ (f + 1) := by
        have h36 : 0 < (36 : Nat) := by norm_num
        rw [Nat.div_lt_iff_lt_mul h36]
        calc n < 36 ^ (f + 1 + 1) := hn
        _ = 36 ^ (f + 1) * 36 := by rw [pow_succ]
      rw [parseDigits36_append, ih (n / 36) acc hdiv]
      have hm : n % 36 < 36 := Nat.mod_lt n (by norm_num)
      show parseDigits36 [digit36 (n % 36)] _ = _
      rw [parseDigits36_cons, digVal36_digit36 _ hm]
      simp only [if_pos hm]
      show some ((acc * 36 ^ (fmtNat36F f (n / 36)).length + n / 36) * 36 + n % 36) = _
      have hnm : n / 36 * 36 + n % 36 = n := by omega
      have harith : ∀ L : Nat, (acc * 36 ^ L + n / 36) * 36 + n % 36 =
          acc * 36 ^ (L + 1) + n := by
        intro L
        conv_rhs => rw [← hnm]
        rw [pow_succ]
        ring
      rw [harith]
      congr 1
      simp

theorem parseDigits36_zeros : ∀ (m : Nat) (bs : Bytes),
    parseDigits36 (List.replicate m 48 ++ bs) 0 = parseDigits36 bs 0 := by
  intro m
  induction m with
  | zero => intro bs; rfl
  | succ m ih =>
    intro bs
    rw [List.replicate_succ, List.cons_append, parseDigits36_cons]
    have h48 : digVal36 48 = some 0 := by decide
    rw [h48]
    simp only [if_pos (by norm_num : (0 : Nat) < 36)]
    simpa using ih bs

theorem parseInt36_digits (b : Nat) (bs : Bytes) (n : Nat)
    (hd : ∀ c ∈ b :: bs, c ≠ 43 ∧ c ≠ 45)
    (hp : parseDigits36 (b :: bs) 0 = some n) (hrange : n < 2 ^ 63) :
    parseInt36 (b :: bs) = some (n : Int) := by
  show (if b = 43 then _ else if b = 45 then _ else
    (parseDigits36 (b :: bs) 0).bind fun m => if m < 2 ^ 63 then some (m : Int) else none) = _
  rw [if_neg (hd b (List.mem_cons_self b bs)).1, if_neg (hd b (List.mem_cons_self b bs)).2, hp]
  show (if n < 2 ^ 63 then some (n : Int) else none) = some (n : Int)
  rw [if_pos hrange]

theorem leftPad_length (bs : Bytes) (n : Nat) (h : bs.length ≤ n) :
    (leftPad bs n).length = n := by
  simp [leftPad]
  omega

theorem parseInt36_leftPad_fmt (n k : Nat) (h1 : 1 ≤ k) (hk : k ≤ 16) (hn : n < 36 ^ k)
    (hrange : n < 2 ^ 63) :
    parseInt36 (leftPad (fmtNat36 n) k) = some (n : Int) := by
  have hlen : (fmtNat36F 16 n).length ≤ k :=
    fmtNat36F_length_le 16 n k h1 hn (by omega)
  have hfuel : n < 36 ^ (16 + 1) :=
    lt_of_lt_of_le hn (Nat.pow_le_pow_right (by norm_num) (by omega))
  have hparse : parseDigits36 (List.replicate (k - (fmtNat36 n).length) 48 ++ fmtNat36 n) 0 =
      some n := by
    rw [parseDigits36_zeros]
    rw [show fmtNat36 n = fmtNat36F 16 n from rfl, parseDigits36_fmt 16 n 0 hfuel]
    simp
  have hbytes : ∀ c ∈ List.replicate (k - (fmtNat36 n).length) 48 ++ fmtNat36 n,
      c ≠ 43 ∧ c ≠ 45 := by
    intro c hc
    rw [List.mem_append] at hc
    rcases hc with hc | hc
    · rw [List.eq_of_mem_replicate hc]
      omega
    · obtain ⟨d, hd⟩ := fmtNat36F_bytes 16 n c hc
      rw [hd]
      exact digit36_ne_sign d
  show parseInt36 (List.replicate (k - (fmtNat36 n).length) 48 ++ fmtNat36 n) = some (n : Int)
  match hrep : List.replicate (k - (fmtNat36 n).length) 48 ++ fmtNat36 n with
  | [] =>
    obtain ⟨d, bs, hd⟩ := fmtNat36F_head_digit 16 n
    rw [show fmtNat36 n = fmtNat36F 16 n from rfl, hd] at hrep
    exact absurd hrep (by simp)
  | b :: bs =>
    rw [hrep] at hparse hbytes
    exact parseInt36_digits b bs n hbytes hparse hrange

/-! ## Normal form of a GUID built by the setters -/

/-- A field region: encoded bytes then zero padding up to width `w`. -/
def padF (bs : Bytes) (w : Nat) : Bytes := bs ++ List.replicate (w - bs.length) 0

theorem padF_length (bs : Bytes) (w : Nat) (h : bs.length ≤ w) : (padF bs w).length = w := by
  simp [padF]
  omega

theorem writeAt_pad (pre suf : Bytes) (w : Nat) (bs : Bytes) (h : bs.length ≤ w) :
    writeAt (pre ++ (List.replicate w 0 ++ suf)) pre.length bs =
      pre ++ (padF bs w ++ suf) := by
  rw [writeAt_append]
  congr 1
  rw [writeAt_zero bs _ (by simp; omega)]
  rw [List.drop_append_eq_append_drop, List.drop_replicate]
  have hz : bs.length - (List.replicate w (0 : Nat)).length = 0 := by simp; omega
  rw [hz, List.drop_zero]
  simp [padF]

theorem zigzag_of_nonneg (v : Int) (h : 0 ≤ v) : zigzag v = 2 * v.toNat := by
  unfold zigzag
  rw [if_neg (by omega)]

theorem formatInt36_nonneg (v : Int) (h : 0 ≤ v) : formatInt36 v = fmtNat36 v.toNat := by
  unfold formatInt36
  rw [if_neg (by omega)]

theorem build_nf (p1 p2 : Nat) (e1 e2 e3 e4 e5 : Bytes)
    (h1 : e1.length ≤ 8) (h2 : e2.length ≤ 4) (h3 : e3.length ≤ 4)
    (h4 : e4.length ≤ 4) (h5 : e5.length ≤ 4) :
    writeAt (writeAt (writeAt (writeAt (writeAt ((zeroGuid.set 0 p1).set 1 p2) 2 e1)
      10 e2) 14 e3) 18 e4) 22 e5 =
    [p1, p2] ++ (padF e1 8 ++ (padF e2 4 ++ (padF e3 4 ++ (padF e4 4 ++ padF e5 4)))) := by
  have hz : (zeroGuid.set 0 p1).set 1 p2 =
      [p1, p2] ++ (List.replicate 8 0 ++ List.replicate 16 0) := rfl
  rw [hz]
  have s1 : writeAt ([p1, p2] ++ (List.replicate 8 0 ++ List.replicate 16 0)) 2 e1 =
      [p1, p2] ++ (padF e1 8 ++ List.replicate 16 0) :=
    writeAt_pad [p1, p2] (List.replicate 16 0) 8 e1 h1
  rw [s1]
  have hl2 : (([p1, p2] ++ padF e1 8 : Bytes)).length = 10 := by
    simp [padF]
    omega
  have s2 : writeAt (([p1, p2] ++ padF e1 8) ++ (List.replicate 4 0 ++ List.replicate 12 0))
      ([p1, p2] ++ padF e1 8 : Bytes).length e2 =
      ([p1, p2] ++ padF e1 8) ++ (padF e2 4 ++ List.replicate 12 0) :=
    writeAt_pad ([p1, p2] ++ padF e1 8) (List.replicate 12 0) 4 e2 h2
  rw [hl2] at s2
  have hsp16 : List.replicate 16 (0 : Nat) = List.replicate 4 0 ++ List.replicate 12 0 := by
    rw [← List.replicate_add]
  have hsp12 : List.replicate 12 (0 : Nat) = List.replicate 4 0 ++ List.replicate 8 0 := by
    rw [← List.replicate_add]
  have hsp8 : List.replicate 8 (0 : Nat) = List.replicate 4 0 ++ List.replicate 4 0 := by
    rw [← List.replicate_add]
  have hshape2 : [p1, p2] ++ (padF e1 8 ++ List.replicate 16 0) =
      ([p1, p2] ++ padF e1 8) ++ (List.replicate 4 0 ++ List.replicate 12 0) := by
    rw [hsp16]
    simp [List.append_assoc]
  rw [hshape2, s2]
  have hl3 : ((([p1, p2] ++ padF e1 8) ++ padF e2 4 : Bytes)).length = 14 := by
    simp [padF]
    omega
  have s3 : writeAt ((([p1, p2] ++ padF e1 8) ++ padF e2 4) ++
      (List.replicate 4 0 ++ List.replicate 8 0))
      (([p1, p2] ++ padF e1 8) ++ padF e2 4 : Bytes).length e3 =
      (([p1, p2] ++ padF e1 8) ++ padF e2 4) ++ (padF e3 4 ++ List.replicate 8 0) :=
    writeAt_pad (([p1, p2] ++ padF e1 8) ++ padF e2 4) (List.replicate 8 0) 4 e3 h3
  rw [hl3] at s3
  have hshape3 : ([p1, p2] ++ padF e1 8) ++ (padF e2 4 ++ List.replicate 12 0) =
      (([p1, p2] ++ padF e1 8) ++ padF e2 4) ++ (List.replicate 4 0 ++ List.replicate 8 0) := by
    rw [hsp12]
    simp [List.append_assoc]
  rw [hshape3, s3]
  have hl4 : (((([p1, p2] ++ padF e1 8) ++ padF e2 4) ++ padF e3 4 : Bytes)).length = 18 := by
    simp [padF]
    omega
  have s4 : writeAt (((([p1, p2] ++ padF e1 8) ++ padF e2 4) ++ padF e3 4) ++
      (List.replicate 4 0 ++ List.replicate 4 0))
      ((([p1, p2] ++ padF e1 8) ++ padF e2 4) ++ padF e3 4 : Bytes).length e4 =
      ((([p1, p2] ++ padF e1 8) ++ padF e2 4) ++ padF e3 4) ++
        (padF e4 4 ++ List.replicate 4 0) :=
    writeAt_pad ((([p1, p2] ++ padF e1 8) ++ padF e2 4) ++ padF e3 4)
      (List.replicate 4 0) 4 e4 h4
  rw [hl4] at s4
  have hshape4 : (([p1, p2] ++ padF e1 8) ++ padF e2 4) ++ (padF e3 4 ++ List.replicate 8 0) =
      ((([p1, p2] ++ padF e1 8) ++ padF e2 4) ++ padF e3 4) ++
        (List.replicate 4 0 ++ List.replicate 4 0) := by
    rw [hsp8]
    simp [List.append_assoc]
  rw [hshape4, s4]
  have hl5 : ((((([p1, p2] ++ padF e1 8) ++ padF e2 4) ++ padF e3 4) ++ padF e4 4 :
      Bytes)).length = 22 := by
    simp [padF]
    omega
  have s5 : writeAt ((((([p1, p2] ++ padF e1 8) ++ padF e2 4) ++ padF e3 4) ++ padF e4 4) ++
      (List.replicate 4 0 ++ ([] : Bytes)))
      (((([p1, p2] ++ padF e1 8) ++ padF e2 4) ++ padF e3 4) ++ padF e4 4 : Bytes).length e5 =
      (((([p1, p2] ++ padF e1 8) ++ padF e2 4) ++ padF e3 4) ++ padF e4 4) ++
        (padF e5 4 ++ ([] : Bytes)) :=
    writeAt_pad (((([p1, p2] ++ padF e1 8) ++ padF e2 4) ++ padF e3 4) ++ padF e4 4)
      ([] : Bytes) 4 e5 h5
  rw [hl5] at s5
  have hshape5 : ((([p1, p2] ++ padF e1 8) ++ padF e2 4) ++ padF e3 4) ++
      (padF e4 4 ++ List.replicate 4 0) =
      (((([p1, p2] ++ padF e1 8) ++ padF e2 4) ++ padF e3 4) ++ padF e4 4) ++
        (List.replicate 4 0 ++ ([] : Bytes)) := by
    rw [List.append_assoc]
    simp
  rw [hshape5, s5]
  simp [List.append_assoc]

theorem sliceL_mid' (pre mid suf : Bytes) (s e : Nat) (hs : pre.length = s)
    (he : s + mid.length = e) : sliceL (pre ++ (mid ++ suf)) s e = mid := by
  subst hs
  subst he
  exact sliceL_mid pre mid suf

theorem string_nf (p1 p2 : Nat) (F1 F2 F3 F4 F5 : Bytes)
    (h1 : F1.length = 8) (h2 : F2.length = 4) (h3 : F3.length = 4)
    (h4 : F4.length = 4) (h5 : F5.length = 4) :
    GUID.String ([p1, p2] ++ (F1 ++ (F2 ++ (F3 ++ (F4 ++ F5))))) =
      p1 :: p2 ::
        (leftPad (formatInt36 (varintVal F1)) 8 ++
          (leftPad (formatInt36 (varintVal F2)) 4 ++
            (leftPad (formatInt36 (varintVal F3)) 4 ++
              (leftPad (formatInt36 (varintVal F4)) 4 ++
                leftPad (formatInt36 (varintVal F5)) 4)))) := by
  have hs1 : sliceL ([p1, p2] ++ (F1 ++ (F2 ++ (F3 ++ (F4 ++ F5))))) 2 10 = F1 :=
    sliceL_mid' [p1, p2] F1 _ 2 10 rfl (by omega)
  have hg2 : [p1, p2] ++ (F1 ++ (F2 ++ (F3 ++ (F4 ++ F5)))) =
      ([p1, p2] ++ F1) ++ (F2 ++ (F3 ++ (F4 ++ F5))) := by
    simp [List.append_assoc]
  have hs2 : sliceL ([p1, p2] ++ (F1 ++ (F2 ++ (F3 ++ (F4 ++ F5))))) 10 14 = F2 := by
    rw [hg2]
    exact sliceL_mid' ([p1, p2] ++ F1) F2 _ 10 14 (by simp [h1]) (by omega)
  have hg3 : [p1, p2] ++ (F1 ++ (F2 ++ (F3 ++ (F4 ++ F5)))) =
      (([p1, p2] ++ F1) ++ F2) ++ (F3 ++ (F4 ++ F5)) := by
    simp [List.append_assoc]
  have hs3 : sliceL ([p1, p2] ++ (F1 ++ (F2 ++ (F3 ++ (F4 ++ F5))))) 14 18 = F3 := by
    rw [hg3]
    exact sliceL_mid' (([p1, p2] ++ F1) ++ F2) F3 _ 14 18 (by simp [h1, h2]) (by omega)
  have hg4 : [p1, p2] ++ (F1 ++ (F2 ++ (F3 ++ (F4 ++ F5)))) =
      ((([p1, p2] ++ F1) ++ F2) ++ F3) ++ (F4 ++ F5) := by
    simp [List.append_assoc]
  have hs4 : sliceL ([p1, p2] ++ (F1 ++ (F2 ++ (F3 ++ (F4 ++ F5))))) 18 22 = F4 := by
    rw [hg4]
    exact sliceL_mid' ((([p1, p2] ++ F1) ++ F2) ++ F3) F4 _ 18 22
      (by simp [h1, h2, h3]) (by omega)
  have hg5 : [p1, p2] ++ (F1 ++ (F2 ++ (F3 ++ (F4 ++ F5)))) =
      (((([p1, p2] ++ F1) ++ F2) ++ F3) ++ F4) ++ (F5 ++ ([] : Bytes)) := by
    simp [List.append_assoc]
  have hs5 : sliceL ([p1, p2] ++ (F1 ++ (F2 ++ (F3 ++ (F4 ++ F5))))) 22 26 = F5 := by
    rw [hg5]
    exact sliceL_mid' ((((([p1, p2] : Bytes) ++ F1) ++ F2) ++ F3) ++ F4) F5 _ 22 26
      (by simp [h1, h2, h3, h4]) (by omega)
  unfold GUID.String
  rw [hs1, hs2, hs3, hs4, hs5]
  rfl

/-! ## Field reads after field writes on an arbitrary GUID -/

theorem writeAt_char (g e : Bytes) (i : Nat) (h : i + e.length ≤ g.length) :
    writeAt g i e = g.take i ++ (e ++ (g.drop i).drop e.length) := by
  have hti : (g.take i).length = i := by simp [List.length_take]; omega
  have h1 := writeAt_append (g.take i) (g.drop i) e
  rw [hti, List.take_append_drop] at h1
  rw [h1, writeAt_zero e _ (by simp; omega)]

theorem sliceL_writeAt (g e : Bytes) (i w : Nat) (hle : e.length ≤ w)
    (hiw : i + w ≤ g.length) :
    sliceL (writeAt g i e) i (i + w) = e ++ sliceL g (i + e.length) (i + w) := by
  rw [writeAt_char g e i (by omega)]
  unfold sliceL
  have hti : (g.take i).length = i := by simp [List.length_take]; omega
  rw [List.drop_append_eq_append_drop, hti, Nat.sub_self,
    List.drop_eq_nil_of_le (by omega), List.drop_zero, List.nil_append]
  rw [List.take_append_eq_append_take]
  rw [List.take_of_length_le (by omega), List.drop_drop]
  congr 2
  all_goals omega

theorem sliceL_writeAt_right (g e : Bytes) (i s t : Nat) (hst : s ≤ t) (hti : t ≤ i)
    (hig : i + e.length ≤ g.length) :
    sliceL (writeAt g i e) s t = sliceL g s t := by
  rw [writeAt_char g e i hig]
  unfold sliceL
  have hlt : (g.take i).length = i := by simp [List.length_take]; omega
  rw [List.drop_append_eq_append_drop, hlt]
  have hs0 : s - i = 0 := by omega
  rw [hs0, List.drop_zero]
  rw [List.take_append_eq_append_take]
  have hlA : (List.drop s (g.take i)).length = i - s := by simp; omega
  rw [hlA]
  have ht0 : t - s - (i - s) = 0 := by omega
  rw [ht0, List.take_zero, List.append_nil]
  rw [List.drop_take, List.take_take]
  congr 1
  omega

theorem drop_set_of_lt (l : Bytes) (i n v : Nat) (h : i < n) :
    (l.set i v).drop n = l.drop n := by
  apply List.ext_getElem?
  intro m
  rw [List.getElem?_drop, List.getElem?_drop, List.getElem?_set_ne (by omega)]

theorem filter_bounds (v : Int) : 0 ≤ filter v ∧ filter v < 1679616 := by
  unfold filter
  exact ⟨Int.emod_nonneg v (by norm_num), Int.emod_lt_of_pos v (by norm_num)⟩

theorem filter_eq_of_range (v : Int) (h0 : 0 ≤ v) (h1 : v < 1679616) : filter v = v :=
  Int.emod_eq_of_lt h0 h1

theorem toInt32_small (v : Int) (h0 : -(2 ^ 31) ≤ v) (h1 : v < 2 ^ 31) : toInt32 v = v := by
  show (v + 2 ^ 31) % 2 ^ 32 - 2 ^ 31 = v
  have : (v + 2 ^ 31) % 2 ^ 32 = v + 2 ^ 31 := Int.emod_eq_of_lt (by omega) (by omega)
  omega

theorem zigzag_filter_lt (v : Int) : zigzag (filter v) < 128 ^ 4 := by
  obtain ⟨h0, h1⟩ := filter_bounds v
  rw [zigzag_of_nonneg _ h0]
  omega

theorem zigzag_lt_of_bounds (v : Int) (k : Nat) (h : 2 * v.natAbs < 128 ^ k) :
    zigzag v < 128 ^ k := lt_of_le_of_lt (zigzag_le v) h

/-- Varint-decode a field that was just written into an arbitrary GUID:
trailing stale bytes in the field are ignored by the decoder. -/
theorem varint_field_set (g : Bytes) (i w : Nat) (v : Int)
    (hle : (putVarint v).length ≤ w) (hiw : i + w ≤ g.length) (hz : zigzag v < 128 ^ 8) :
    varintVal (sliceL (writeAt g i (putVarint v)) i (i + w)) = v := by
  rw [sliceL_writeAt g _ i w hle hiw]
  exact varintVal_putVarint v _ hz

theorem filter_field_len (v : Int) : (putVarint (filter v)).length ≤ 4 :=
  putVarint_length_le (filter v) 4 (by norm_num) (by norm_num) (zigzag_filter_lt v)

/-! ## Claim C5 -/

/-- C5: `Parse` of any byte sequence whose length is not exactly 26 fails with
the `invalidLength` error; the length check is the first thing `Parse` does,
before any field parsing. -/
theorem c5_parse_invalid_length (input : Bytes) (h : input.length ≠ 26) :
    Parse input = .error .invalidLength := by
  unfold Parse
  rw [if_pos h]

theorem c5_parse_invalid_length_witness :
    ([110, 111, 112, 101] : Bytes).length ≠ 26 ∧
      Parse [110, 111, 112, 101] = .error .invalidLength :=
  ⟨by decide, c5_parse_invalid_length [110, 111, 112, 101] (by decide)⟩

/-! ## Claim C7 -/

/-- C7: `Slug` is exactly 12 bytes: the bytes of `GUID.String` at the fixed
0-indexed positions 6,7,8,9,16,17,20,21,22,23,24,25, in that order; hence two
GUIDs that differ only in the two prefix bytes produce identical slugs (the
slug looks only at string positions ≥ 6, which never depend on the prefix). -/
theorem c7_slug_positions (g : Bytes) :
    (Slug g).length = 12 ∧
    Slug g = List.map (fun i => (GUID.String g).getD i 0)
      [6, 7, 8, 9, 16, 17, 20, 21, 22, 23, 24, 25] ∧
    (∀ a b : Nat, Slug ((g.set 0 a).set 1 b) = Slug g) := by
  refine ⟨rfl, rfl, ?_⟩
  intro a b
  have hsl : ∀ s e : Nat, 2 ≤ s → sliceL ((g.set 0 a).set 1 b) s e = sliceL g s e := by
    intro s e hs
    unfold sliceL
    rw [drop_set_of_lt _ 1 s b (by omega), drop_set_of_lt _ 0 s a (by omega)]
  have hstr : ∀ k : Nat, (GUID.String ((g.set 0 a).set 1 b)).getD (k + 2) 0 =
      (GUID.String g).getD (k + 2) 0 := by
    intro k
    unfold GUID.String
    rw [hsl 2 10 (by omega), hsl 10 14 (by omega), hsl 14 18 (by omega),
      hsl 18 22 (by omega), hsl 22 26 (by omega)]
    rfl
  have h6 : (GUID.String ((g.set 0 a).set 1 b)).getD 6 0 = (GUID.String g).getD 6 0 := hstr 4
  have h7 : (GUID.String ((g.set 0 a).set 1 b)).getD 7 0 = (GUID.String g).getD 7 0 := hstr 5
  have h8 : (GUID.String ((g.set 0 a).set 1 b)).getD 8 0 = (GUID.String g).getD 8 0 := hstr 6
  have h9 : (GUID.String ((g.set 0 a).set 1 b)).getD 9 0 = (GUID.String g).getD 9 0 := hstr 7
  have h16 : (GUID.String ((g.set 0 a).set 1 b)).getD 16 0 = (GUID.String g).getD 16 0 :=
    hstr 14
  have h17 : (GUID.String ((g.set 0 a).set 1 b)).getD 17 0 = (GUID.String g).getD 17 0 :=
    hstr 15
  have h20 : (GUID.String ((g.set 0 a).set 1 b)).getD 20 0 = (GUID.String g).getD 20 0 :=
    hstr 18
  have h21 : (GUID.String ((g.set 0 a).set 1 b)).getD 21 0 = (GUID.String g).getD 21 0 :=
    hstr 19
  have h22 : (GUID.String ((g.set 0 a).set 1 b)).getD 22 0 = (GUID.String g).getD 22 0 :=
    hstr 20
  have h23 : (GUID.String ((g.set 0 a).set 1 b)).getD 23 0 = (GUID.String g).getD 23 0 :=
    hstr 21
  have h24 : (GUID.String ((g.set 0 a).set 1 b)).getD 24 0 = (GUID.String g).getD 24 0 :=
    hstr 22
  have h25 : (GUID.String ((g.set 0 a).set 1 b)).getD 25 0 = (GUID.String g).getD 25 0 :=
    hstr 23
  show [(GUID.String ((g.set 0 a).set 1 b)).getD 6 0,
    (GUID.String ((g.set 0 a).set 1 b)).getD 7 0,
    (GUID.String ((g.set 0 a).set 1 b)).getD 8 0,
    (GUID.String ((g.set 0 a).set 1 b)).getD 9 0,
    (GUID.String ((g.set 0 a).set 1 b)).getD 16 0,
    (GUID.String ((g.set 0 a).set 1 b)).getD 17 0,
    (GUID.String ((g.set 0 a).set 1 b)).getD 20 0,
    (GUID.String ((g.set 0 a).set 1 b)).getD 21 0,
    (GUID.String ((g.set 0 a).set 1 b)).getD 22 0,
    (GUID.String ((g.set 0 a).set 1 b)).getD 23 0,
    (GUID.String ((g.set 0 a).set 1 b)).getD 24 0,
    (GUID.String ((g.set 0 a).set 1 b)).getD 25 0] = _
  rw [h6, h7, h8, h9, h16, h17, h20, h21, h22, h23, h24, h25]
  rfl

/-! ## Claim C8 (corrected) -/

/-- C8 counterexample: the claim quantifies over every 26-byte array, but a
GUID whose random field bytes decode to a huge negative varint value renders
as more than 26 characters (the base36 form of the decoded value is wider than
its 4-character slot, and `leftPad` never truncates). -/
theorem c8_counterexample :
    (writeAt zeroGuid 22 [255, 255, 255, 127]).length = 26 ∧
      (GUID.String (writeAt zeroGuid 22 [255, 255, 255, 127])).length ≠ 26 := by
  constructor
  · rfl
  · decide

/-- C8 (amended): for every 26-byte GUID whose decoded timestamp lies in
`[0, 36^8)` and whose decoded fingerprint/counter/random values lie in
`[0, 36^4)`, `GUID.String` is exactly 26 bytes: the 2 raw prefix bytes,
then the base36 timestamp left-padded to 8 characters, then the four
remaining fields each left-padded to 4 characters. -/
theorem c8_string_layout (g : Bytes)
    (hts0 : 0 ≤ varintVal (sliceL g 2 10)) (hts1 : varintVal (sliceL g 2 10) < 36 ^ 8)
    (hfp0 : 0 ≤ varintVal (sliceL g 10 14)) (hfp1 : varintVal (sliceL g 10 14) < 36 ^ 4)
    (hic0 : 0 ≤ varintVal (sliceL g 14 18)) (hic1 : varintVal (sliceL g 14 18) < 36 ^ 4)
    (hdc0 : 0 ≤ varintVal (sliceL g 18 22)) (hdc1 : varintVal (sliceL g 18 22) < 36 ^ 4)
    (hrd0 : 0 ≤ varintVal (sliceL g 22 26)) (hrd1 : varintVal (sliceL g 22 26) < 36 ^ 4) :
    (GUID.String g).length = 26 ∧
    sliceL (GUID.String g) 0 2 = [g.getD 0 0, g.getD 1 0] ∧
    sliceL (GUID.String g) 2 10 = leftPad (formatInt36 (varintVal (sliceL g 2 10))) 8 ∧
    sliceL (GUID.String g) 10 14 = leftPad (formatInt36 (varintVal (sliceL g 10 14))) 4 ∧
    sliceL (GUID.String g) 14 18 = leftPad (formatInt36 (varintVal (sliceL g 14 18))) 4 ∧
    sliceL (GUID.String g) 18 22 = leftPad (formatInt36 (varintVal (sliceL g 18 22))) 4 ∧
    sliceL (GUID.String g) 22 26 = leftPad (formatInt36 (varintVal (sliceL g 22 26))) 4 := by
  have hS1 : (leftPad (formatInt36 (varintVal (sliceL g 2 10))) 8).length = 8 := by
    rw [formatInt36_nonneg _ hts0]
    exact leftPad_length _ 8 (fmtNat36F_length_le 16 _ 8 (by norm_num) (by omega) (by norm_num))
  have hS2 : (leftPad (formatInt36 (varintVal (sliceL g 10 14))) 4).length = 4 := by
    rw [formatInt36_nonneg _ hfp0]
    exact leftPad_length _ 4 (fmtNat36F_length_le 16 _ 4 (by norm_num) (by omega) (by norm_num))
  have hS3 : (leftPad (formatInt36 (varintVal (sliceL g 14 18))) 4).length = 4 := by
    rw [formatInt36_nonneg _ hic0]
    exact leftPad_length _ 4 (fmtNat36F_length_le 16 _ 4 (by norm_num) (by omega) (by norm_num))
  have hS4 : (leftPad (formatInt36 (varintVal (sliceL g 18 22))) 4).length = 4 := by
    rw [formatInt36_nonneg _ hdc0]
    exact leftPad_length _ 4 (fmtNat36F_length_le 16 _ 4 (by norm_num) (by omega) (by norm_num))
  have hS5 : (leftPad (formatInt36 (varintVal (sliceL g 22 26))) 4).length = 4 := by
    rw [formatInt36_nonneg _ hrd0]
    exact leftPad_length _ 4 (fmtNat36F_length_le 16 _ 4 (by norm_num) (by omega) (by norm_num))
  refine ⟨?_, ?_, ?_, ?_, ?_, ?_, ?_⟩
  · show ((g.getD 0 0 :: g.getD 1 0 :: _ : Bytes)).length = 26
    simp only [List.length_cons, List.length_append, hS1, hS2, hS3, hS4, hS5]
  · exact sliceL_mid' [] [g.getD 0 0, g.getD 1 0] _ 0 2 rfl rfl
  · exact sliceL_mid' [g.getD 0 0, g.getD 1 0] _ _ 2 10 rfl (by rw [hS1])
  · have hg2 : GUID.String g =
        ([g.getD 0 0, g.getD 1 0] ++ leftPad (formatInt36 (varintVal (sliceL g 2 10))) 8) ++
          (leftPad (formatInt36 (varintVal (sliceL g 10 14))) 4 ++
            (leftPad (formatInt36 (varintVal (sliceL g 14 18))) 4 ++
              (leftPad (formatInt36 (varintVal (sliceL g 18 22))) 4 ++
                leftPad (formatInt36 (varintVal (sliceL g 22 26))) 4))) := by
      show ([g.getD 0 0, g.getD 1 0] : Bytes) ++ _ = _
      simp [List.append_assoc]
    rw [hg2]
    exact sliceL_mid' _ _ _ 10 14 (by simp [hS1]) (by rw [hS2])
  · have hg3 : GUID.String g =
        (([g.getD 0 0, g.getD 1 0] ++ leftPad (formatInt36 (varintVal (sliceL g 2 10))) 8) ++
            leftPad (formatInt36 (varintVal (sliceL g 10 14))) 4) ++
          (leftPad (formatInt36 (varintVal (sliceL g 14 18))) 4 ++
            (leftPad (formatInt36 (varintVal (sliceL g 18 22))) 4 ++
              leftPad (formatInt36 (varintVal (sliceL g 22 26))) 4)) := by
      show ([g.getD 0 0, g.getD 1 0] : Bytes) ++ _ = _
      simp [List.append_assoc]
    rw [hg3]
    exact sliceL_mid' _ _ _ 14 18 (by simp [hS1, hS2]) (by rw [hS3])
  · have hg4 : GUID.String g =
        ((([g.getD 0 0, g.getD 1 0] ++ leftPad (formatInt36 (varintVal (sliceL g 2 10))) 8) ++
            leftPad (formatInt36 (varintVal (sliceL g 10 14))) 4) ++
              leftPad (formatInt36 (varintVal (sliceL g 14 18))) 4) ++
          (leftPad (formatInt36 (varintVal (sliceL g 18 22))) 4 ++
            leftPad (formatInt36 (varintVal (sliceL g 22 26))) 4) := by
      show ([g.getD 0 0, g.getD 1 0] : Bytes) ++ _ = _
      simp [List.append_assoc]
    rw [hg4]
    exact sliceL_mid' _ _ _ 18 22 (by simp [hS1, hS2, hS3]) (by rw [hS4])
  · have hg5 : GUID.String g =
        (((([g.getD 0 0, g.getD 1 0] ++
              leftPad (formatInt36 (varintVal (sliceL g 2 10))) 8) ++
            leftPad (formatInt36 (varintVal (sliceL g 10 14))) 4) ++
              leftPad (formatInt36 (varintVal (sliceL g 14 18))) 4) ++
                leftPad (formatInt36 (varintVal (sliceL g 18 22))) 4) ++
          (leftPad (formatInt36 (varintVal (sliceL g 22 26))) 4 ++ ([] : Bytes)) := by
      show ([g.getD 0 0, g.getD 1 0] : Bytes) ++ _ = _
      simp [List.append_assoc]
    rw [hg5]
    exact sliceL_mid' _ _ _ 22 26 (by simp [hS1, hS2, hS3, hS4]) (by rw [hS5])

theorem c8_string_layout_witness :
    (0 : Int) ≤ varintVal (sliceL zeroGuid 2 10) ∧
      (GUID.String zeroGuid).length = 26 :=
  ⟨by decide,
    (c8_string_layout zeroGuid (by decide) (by decide) (by decide) (by decide) (by decide)
      (by decide) (by decide) (by decide) (by decide) (by decide)).1⟩

/-! ## Claim C4 -/

/-- C4: for every `int32` value that is negative or at least 1,679,616, each of
`SetFingerprint`, `SetCounters` and `SetRandom` stores the value reduced modulo
1,679,616, a value in `[0, 1679616)`; the corresponding getter returns exactly
`v % 1679616` (the mathematical modulus) and the field's base36 component of
`GUID.String` is exactly 4 characters wide. -/
theorem c4_numeric_filtering (g : Bytes) (hg : g.length = 26) (v w : Int)
    (hv32 : -(2 ^ 31) ≤ v ∧ v < 2 ^ 31) (hw32 : -(2 ^ 31) ≤ w ∧ w < 2 ^ 31)
    (hout : v < 0 ∨ 1679616 ≤ v) :
    (0 ≤ v % 1679616 ∧ v % 1679616 < 1679616) ∧
    Fingerprint (SetFingerprint g v) = v % 1679616 ∧
    Counters (SetCounters g v w) = (v % 1679616, w % 1679616) ∧
    RandomVal (SetRandom g v) = v % 1679616 ∧
    (leftPad (formatInt36 (varintVal (sliceL (SetFingerprint g v) 10 14))) 4).length = 4 ∧
    (leftPad (formatInt36 (varintVal (sliceL (SetCounters g v w) 14 18))) 4).length = 4 ∧
    (leftPad (formatInt36 (varintVal (sliceL (SetCounters g v w) 18 22))) 4).length = 4 ∧
    (leftPad (formatInt36 (varintVal (sliceL (SetRandom g v) 22 26))) 4).length = 4 := by
  have hz8 : ∀ u : Int, zigzag (filter u) < 128 ^ 8 :=
    fun u => lt_of_lt_of_le (zigzag_filter_lt u) (by norm_num)
  have hget : ∀ (g' : Bytes) (i : Nat) (u : Int), g'.length = 26 → i + 4 ≤ 26 →
      varintVal (sliceL (writeAt g' i (putVarint (filter u))) i (i + 4)) = filter u := by
    intro g' i u hgl hi
    exact varint_field_set g' i 4 (filter u) (filter_field_len u) (by omega) (hz8 u)
  have hfil32 : ∀ u : Int, toInt32 (filter u) = filter u := by
    intro u
    obtain ⟨h0, h1⟩ := filter_bounds u
    exact toInt32_small _ (by omega) (by omega)
  have hfp : varintVal (sliceL (SetFingerprint g v) 10 14) = filter v := by
    show varintVal (sliceL (writeAt g 10 (putVarint (filter v))) 10 (10 + 4)) = filter v
    exact hget g 10 v hg (by omega)
  have hlic : (writeAt g 14 (putVarint (filter v)) : Bytes).length = 26 := by
    rw [length_writeAt]
    exact hg
  have hic : varintVal (sliceL (SetCounters g v w) 14 18) = filter v := by
    show varintVal (sliceL (writeAt (writeAt g 14 (putVarint (filter v))) 18
      (putVarint (filter w))) 14 18) = filter v
    rw [sliceL_writeAt_right _ _ 18 14 18 (by omega) (by omega)
      (by rw [hlic]; have := filter_field_len w; omega)]
    show varintVal (sliceL (writeAt g 14 (putVarint (filter v))) 14 (14 + 4)) = filter v
    exact hget g 14 v hg (by omega)
  have hdc : varintVal (sliceL (SetCounters g v w) 18 22) = filter w := by
    show varintVal (sliceL (writeAt (writeAt g 14 (putVarint (filter v))) 18
      (putVarint (filter w))) 18 (18 + 4)) = filter w
    exact hget _ 18 w hlic (by omega)
  have hrd : varintVal (sliceL (SetRandom g v) 22 26) = filter v := by
    show varintVal (sliceL (writeAt g 22 (putVarint (filter v))) 22 (22 + 4)) = filter v
    exact hget g 22 v hg (by omega)
  have hwid : ∀ u : Int, (leftPad (formatInt36 (filter u)) 4).length = 4 := by
    intro u
    obtain ⟨h0, h1⟩ := filter_bounds u
    rw [formatInt36_nonneg _ h0]
    exact leftPad_length _ 4 (fmtNat36F_length_le 16 _ 4 (by norm_num) (by omega) (by norm_num))
  refine ⟨filter_bounds v, ?_, ?_, ?_, ?_, ?_, ?_, ?_⟩
  · show toInt32 (varintVal (sliceL (SetFingerprint g v) 10 14)) = v % 1679616
    rw [hfp, hfil32]
    rfl
  · show (toInt32 (varintVal (sliceL (SetCounters g v w) 14 18)),
      toInt32 (varintVal (sliceL (SetCounters g v w) 18 22))) = (v % 1679616, w % 1679616)
    rw [hic, hdc, hfil32, hfil32]
    rfl
  · show toInt32 (varintVal (sliceL (SetRandom g v) 22 26)) = v % 1679616
    rw [hrd, hfil32]
    rfl
  · rw [hfp]
    exact hwid v
  · rw [hic]
    exact hwid v
  · rw [hdc]
    exact hwid w
  · rw [hrd]
    exact hwid v

theorem c4_numeric_filtering_witness :
    ((-1 : Int) < 0 ∨ (1679616 : Int) ≤ -1) ∧
    Fingerprint (SetFingerprint zeroGuid (-1)) = (-1 : Int) % 1679616 ∧
    RandomVal (SetRandom zeroGuid 1679616) = (1679616 : Int) % 1679616 :=
  ⟨Or.inl (by decide),
    (c4_numeric_filtering zeroGuid rfl (-1) 0 (by constructor <;> decide)
      (by constructor <;> decide) (Or.inl (by decide))).2.1,
    (c4_numeric_filtering zeroGuid rfl 1679616 0 (by constructor <;> decide)
      (by constructor <;> decide) (Or.inr (by decide))).2.2.2.1⟩

/-! ## Claim C9 -/

/-- C9: every setter is a pure value operation with a frame property: on a
26-byte GUID, `SetTime` changes only bytes 2–9, `SetFingerprint` only bytes
10–13, `SetCounters` only bytes 14–21, `SetRandom` only bytes 22–25; every
byte outside the target range (including the prefix bytes) is unchanged and
the length stays 26.  (Mutation of the input is impossible in this embedding:
each setter returns a fresh value, mirroring Go's pass-by-value receiver.) -/
theorem c9_setter_frame (g : Bytes) (hg : g.length = 26) (nanos v ic dc rv : Int)
    (hn : -(2 ^ 63) ≤ nanos ∧ nanos < 2 ^ 63) (j : Nat) :
    ((j < 2 ∨ 10 ≤ j) → (SetTime g nanos).getD j 0 = g.getD j 0) ∧
    ((j < 10 ∨ 14 ≤ j) → (SetFingerprint g v).getD j 0 = g.getD j 0) ∧
    ((j < 14 ∨ 22 ≤ j) → (SetCounters g ic dc).getD j 0 = g.getD j 0) ∧
    ((j < 22 ∨ 26 ≤ j) → (SetRandom g rv).getD j 0 = g.getD j 0) ∧
    (SetTime g nanos).length = g.length ∧ (SetFingerprint g v).length = g.length ∧
    (SetCounters g ic dc).length = g.length ∧ (SetRandom g rv).length = g.length := by
  have hms : (nanos.tdiv 1000000).natAbs ≤ 9223372036854 := by
    have h1 : (nanos.tdiv 1000000).natAbs = nanos.natAbs / 1000000 := by
      rw [Int.natAbs_tdiv]
      rfl
    rw [h1]
    have h2 : nanos.natAbs ≤ 9223372036854775808 := by omega
    omega
  have hlen8 : (putVarint (nanos.tdiv 1000000)).length ≤ 8 := by
    apply putVarint_length_le _ 8 (by norm_num) (by norm_num)
    apply zigzag_lt_of_bounds
    have h8 : (128 : Nat) ^ 8 = 72057594037927936 := by norm_num
    omega
  refine ⟨?_, ?_, ?_, ?_, ?_, ?_, ?_, ?_⟩
  · intro hj
    show (writeAt g 2 (putVarint (nanos.tdiv 1000000))).getD j 0 = g.getD j 0
    exact getD_writeAt_outside _ g 2 j 0 (by omega)
  · intro hj
    show (writeAt g 10 (putVarint (filter v))).getD j 0 = g.getD j 0
    have := filter_field_len v
    exact getD_writeAt_outside _ g 10 j 0 (by omega)
  · intro hj
    show (writeAt (writeAt g 14 (putVarint (filter ic))) 18
      (putVarint (filter dc))).getD j 0 = g.getD j 0
    have h3 := filter_field_len ic
    have h4 := filter_field_len dc
    rw [getD_writeAt_outside _ _ 18 j 0 (by omega)]
    exact getD_writeAt_outside _ g 14 j 0 (by omega)
  · intro hj
    show (writeAt g 22 (putVarint (filter rv))).getD j 0 = g.getD j 0
    have := filter_field_len rv
    exact getD_writeAt_outside _ g 22 j 0 (by omega)
  · exact length_writeAt _ g 2
  · exact length_writeAt _ g 10
  · show (writeAt (writeAt g 14 (putVarint (filter ic))) 18
      (putVarint (filter dc))).length = g.length
    rw [length_writeAt, length_writeAt]
  · exact length_writeAt _ g 22

theorem c9_setter_frame_witness :
    ((0 : Nat) < 2 ∨ 10 ≤ (0 : Nat)) ∧
      (SetTime zeroGuid 1622222222222000000).getD 0 0 = zeroGuid.getD 0 0 :=
  ⟨Or.inl (by decide),
    (c9_setter_frame zeroGuid rfl 1622222222222000000 0 0 0 0
      (by constructor <;> decide) 0).1 (Or.inl (by decide))⟩

/-! ## Signer helper lemmas -/

theorem lor_lt_256 (x y : Nat) (hx : x < 256) (hy : y < 256) : x ||| y < 256 := by
  have h256 : (256 : Nat) = 2 ^ 8 := by norm_num
  rw [h256] at hx hy ⊢
  exact Nat.bitwise_lt hx hy

theorem hexDigVal_hexDigit (d : Nat) (h : d < 16) : hexDigVal (hexDigit d) = some d := by
  rcases lt_or_ge d 10 with h10 | h10
  · have hd : hexDigit d = 48 + d := by unfold hexDigit; rw [if_pos h10]
    rw [hd]
    unfold hexDigVal
    rw [if_pos (by omega)]
    congr 1
    omega
  · have hd : hexDigit d = 87 + d := by unfold hexDigit; rw [if_neg (by omega)]
    rw [hd]
    unfold hexDigVal
    rw [if_neg (by omega), if_pos (by omega)]
    congr 1
    omega

/-- One-step unfolding of `hexDecode` on a byte pair. -/
theorem hexDecode_cons2 (a c : Nat) (rest : Bytes) :
    hexDecode (a :: c :: rest) =
      match hexDigVal a, hexDigVal c, hexDecode rest with
      | some x, some y, some r => some ((16 * x + y) :: r)
      | _, _, _ => none := rfl

theorem hexDecode_hexEncode (l : Bytes) (h : ∀ b ∈ l, b < 256) :
    hexDecode (hexEncode l) = some l := by
  induction l with
  | nil => rfl
  | cons b bs ih =>
    have hb : b < 256 := h b (List.mem_cons_self b bs)
    have hbs : ∀ c ∈ bs, c < 256 := fun c hc => h c (List.mem_cons_of_mem b hc)
    show hexDecode ((b :: bs).flatMap fun b => [hexDigit (b / 16), hexDigit (b % 16)]) = _
    rw [List.flatMap_cons]
    show hexDecode (hexDigit (b / 16) :: hexDigit (b % 16) :: hexEncode bs) = _
    rw [hexDecode_cons2, hexDigVal_hexDigit _ (by omega), hexDigVal_hexDigit _ (by omega), ih hbs]
    show some ((16 * (b / 16) + b % 16) :: bs) = some (b :: bs)
    have hbb : 16 * (b / 16) + b % 16 = b := by omega
    rw [hbb]

theorem compressBlock_length (b : Bytes) (hs : List Nat) : (compressBlock b hs).length = 8 := rfl

theorem sha256Loop_length : ∀ (f : Nat) (l : Bytes) (hs : List Nat), hs.length = 8 →
    (sha256Loop f l hs).length = 8 := by
  intro f
  induction f with
  | zero => intro l hs h; exact h
  | succ f ih =>
    intro l hs h
    cases l with
    | nil => exact h
    | cons x xs => exact ih _ _ (compressBlock_length _ _)

theorem flatMap4_length (l : List Nat) :
    (l.flatMap fun w => [w / 2 ^ 24 % 256, w / 2 ^ 16 % 256, w / 2 ^ 8 % 256, w % 256]).length
      = 4 * l.length := by
  induction l with
  | nil => rfl
  | cons x xs ih =>
    rw [List.flatMap_cons]
    simp only [List.length_append, List.length_cons, List.length_nil, ih]
    omega

theorem sha256_length (msg : Bytes) : (sha256 msg).length = 32 := by
  unfold sha256
  rw [flatMap4_length, sha256Loop_length (msg.length + 2) (sha256Pad msg) sha256H0 (by rfl)]

theorem sha256_bytes_lt (msg : Bytes) : ∀ b ∈ sha256 msg, b < 256 := by
  intro b hb
  unfold sha256 at hb
  rw [List.mem_flatMap] at hb
  obtain ⟨w, _, hw⟩ := hb
  simp only [List.mem_cons, List.not_mem_nil, or_false] at hw
  rcases hw with rfl | rfl | rfl | rfl <;> exact Nat.mod_lt _ (by norm_num)

/-- Reduction of `DidSign` once the hex decode is known. -/
theorem didSign_some (g s sum : Bytes) (h : hexDecode s = some sum) :
    DidSign g s = (if sum.length ≠ 32 then false
      else if sum.getD 12 0 &&& g.getD 0 0 ≠ g.getD 0 0 then false
      else if sum.getD 13 0 &&& g.getD 1 0 ≠ g.getD 1 0 then false
      else didSignLoop g sum 12 2 31) := by
  unfold DidSign
  rw [h]

theorem didSignLoop_true (g sum : Bytes) : ∀ (k i j : Nat),
    (∀ m, m < k → sum.getD (i + m - 2) 0 &&& g.getD (i + m) 0 = g.getD (i + m) 0) →
    (∀ m, m < k → sum.getD (j - m) 0 &&& g.getD (j - m - 6) 0 = g.getD (j - m - 6) 0) →
    didSignLoop g sum k i j = true := by
  intro k
  induction k with
  | zero => intro i j _ _; rfl
  | succ k ih =>
    intro i j h1 h2
    show (if sum.getD (i - 2) 0 &&& g.getD i 0 ≠ g.getD i 0 then false
      else if sum.getD j 0 &&& g.getD (j - 6) 0 ≠ g.getD (j - 6) 0 then false
      else didSignLoop g sum k (i + 1) (j - 1)) = true
    have e1 := h1 0 (by omega)
    simp only [Nat.add_zero] at e1
    have e2 := h2 0 (by omega)
    simp only [Nat.sub_zero] at e2
    rw [if_neg (fun hne => hne e1), if_neg (fun hne => hne e2)]
    apply ih (i + 1) (j - 1)
    · intro m hm
      have hh := h1 (m + 1) (by omega)
      have hidx2 : i + (m + 1) - 2 = i + 1 + m - 2 := by omega
      have hidx : i + (m + 1) = i + 1 + m := by omega
      rw [hidx2, hidx] at hh
      exact hh
    · intro m hm
      have hh := h2 (m + 1) (by omega)
      have hidx : j - (m + 1) = j - 1 - m := by omega
      rw [hidx] at hh
      exact hh

/-- One-step unfolding of `signSum` (pure zeta-unfolding of its lets). -/
theorem signSum_unfold (g sum : Bytes) :
    signSum g sum =
      ((signLoop g 12 2 31 sum).set 12 ((signLoop g 12 2 31 sum).getD 12 0 |||
          g.getD 0 0)).set 13
        (((signLoop g 12 2 31 sum).set 12 ((signLoop g 12 2 31 sum).getD 12 0 |||
            g.getD 0 0)).getD 13 0 ||| g.getD 1 0) := rfl

/-- The folded digest written out positionally: digest positions 0-11 receive
GUID bytes 2-13, positions 12-13 the prefix bytes 0-1, positions 14-19 are
untouched, and positions 20-31 receive GUID bytes 14-25. -/
theorem signSum_explicit (g0 g1 g2 g3 g4 g5 g6 g7 g8 g9 g10 g11 g12 g13 g14 g15 g16 g17 g18 g19 g20 g21 g22 g23 g24 g25
    s0 s1 s2 s3 s4 s5 s6 s7 s8 s9 s10 s11 s12 s13 s14 s15 s16 s17 s18 s19 s20 s21 s22 s23 s24 s25 s26 s27 s28 s29 s30 s31 : Nat) :
    signSum [g0, g1, g2, g3, g4, g5, g6, g7, g8, g9, g10, g11, g12, g13, g14, g15, g16, g17, g18, g19, g20, g21, g22, g23, g24, g25]
      [s0, s1, s2, s3, s4, s5, s6, s7, s8, s9, s10, s11, s12, s13, s14, s15, s16, s17, s18, s19, s20, s21, s22, s23, s24, s25, s26, s27, s28, s29, s30, s31] =
      [s0 ||| g2, s1 ||| g3, s2 ||| g4, s3 ||| g5, s4 ||| g6, s5 ||| g7, s6 ||| g8, s7 ||| g9, s8 ||| g10, s9 ||| g11, s10 ||| g12, s11 ||| g13, s12 ||| g0, s13 ||| g1, s14, s15, s16, s17, s18, s19, s20 ||| g14, s21 ||| g15, s22 ||| g16, s23 ||| g17, s24 ||| g18, s25 ||| g19, s26 ||| g20, s27 ||| g21, s28 ||| g22, s29 ||| g23, s30 ||| g24, s31 ||| g25] := by
  have h1 : signLoop [g0, g1, g2, g3, g4, g5, g6, g7, g8, g9, g10, g11, g12, g13, g14, g15, g16, g17, g18, g19, g20, g21, g22, g23, g24, g25] 12 2 31
      [s0, s1, s2, s3, s4, s5, s6, s7, s8, s9, s10, s11, s12, s13, s14, s15, s16, s17, s18, s19, s20, s21, s22, s23, s24, s25, s26, s27, s28, s29, s30, s31] =
      signLoop [g0, g1, g2, g3, g4, g5, g6, g7, g8, g9, g10, g11, g12, g13, g14, g15, g16, g17, g18, g19, g20, g21, g22, g23, g24, g25] 11 3 30
      [s0 ||| g2, s1, s2, s3, s4, s5, s6, s7, s8, s9, s10, s11, s12, s13, s14, s15, s16, s17, s18, s19, s20, s21, s22, s23, s24, s25, s26, s27, s28, s29, s30, s31 ||| g25] := rfl
  have h2 : signLoop [g0, g1, g2, g3, g4, g5, g6, g7, g8, g9, g10, g11, g12, g13, g14, g15, g16, g17, g18, g19, g20, g21, g22, g23, g24, g25] 11 3 30
      [s0 ||| g2, s1, s2, s3, s4, s5, s6, s7, s8, s9, s10, s11, s12, s13, s14, s15, s16, s17, s18, s19, s20, s21, s22, s23, s24, s25, s26, s27, s28, s29, s30, s31 ||| g25] =
      signLoop [g0, g1, g2, g3, g4, g5, g6, g7, g8, g9, g10, g11, g12, g13, g14, g15, g16, g17, g18, g19, g20, g21, g22, g23, g24, g25] 10 4 29
      [s0 ||| g2, s1 ||| g3, s2, s3, s4, s5, s6, s7, s8, s9, s10, s11, s12, s13, s14, s15, s16, s17, s18, s19, s20, s21, s22, s23, s24, s25, s26, s27, s28, s29, s30 ||| g24, s31 ||| g25] := rfl
  have h3 : signLoop [g0, g1, g2, g3, g4, g5, g6, g7, g8, g9, g10, g11, g12, g13, g14, g15, g16, g17, g18, g19, g20, g21, g22, g23, g24, g25] 10 4 29
      [s0 ||| g2, s1 ||| g3, s2, s3, s4, s5, s6, s7, s8, s9, s10, s11, s12, s13, s14, s15, s16, s17, s18, s19, s20, s21, s22, s23, s24, s25, s26, s27, s28, s29, s30 ||| g24, s31 ||| g25] =
      signLoop [g0, g1, g2, g3, g4, g5, g6, g7, g8, g9, g10, g11, g12, g13, g14, g15, g16, g17, g18, g19, g20, g21, g22, g23, g24, g25] 9 5 28
      [s0 ||| g2, s1 ||| g3, s2 ||| g4, s3, s4, s5, s6, s7, s8, s9, s10, s11, s12, s13, s14, s15, s16, s17, s18, s19, s20, s21, s22, s23, s24, s25, s26, s27, s28, s29 ||| g23, s30 ||| g24, s31 ||| g25] := rfl
  have h4 : signLoop [g0, g1, g2, g3, g4, g5, g6, g7, g8, g9, g10, g11, g12, g13, g14, g15, g16, g17, g18, g19, g20, g21, g22, g23, g24, g25] 9 5 28
      [s0 ||| g2, s1 ||| g3, s2 ||| g4, s3, s4, s5, s6, s7, s8, s9, s10, s11, s12, s13, s14, s15, s16, s17, s18, s19, s20, s21, s22, s23, s24, s25, s26, s27, s28, s29 ||| g23, s30 ||| g24, s31 ||| g25] =
      signLoop [g0, g1, g2, g3, g4, g5, g6, g7, g8, g9, g10, g11, g12, g13, g14, g15, g16, g17, g18, g19, g20, g21, g22, g23, g24, g25] 8 6 27
      [s0 ||| g2, s1 ||| g3, s2 ||| g4, s3 ||| g5, s4, s5, s6, s7, s8, s9, s10, s11, s12, s13, s14, s15, s16, s17, s18, s19, s20, s21, s22, s23, s24, s25, s26, s27, s28 ||| g22, s29 ||| g23, s30 ||| g24, s31 ||| g25] := rfl
  have h5 : signLoop [g0, g1, g2, g3, g4, g5, g6, g7, g8, g9, g10, g11, g12, g13, g14, g15, g16, g17, g18, g19, g20, g21, g22, g23, g24, g25] 8 6 27
      [s0 ||| g2, s1 ||| g3, s2 ||| g4, s3 ||| g5, s4, s5, s6, s7, s8, s9, s10, s11, s12, s13, s14, s15, s16, s17, s18, s19, s20, s21, s22, s23, s24, s25, s26, s27, s28 ||| g22, s29 ||| g23, s30 ||| g24, s31 ||| g25] =
      signLoop [g0, g1, g2, g3, g4, g5, g6, g7, g8, g9, g10, g11, g12, g13, g14, g15, g16, g17, g18, g19, g20, g21, g22, g23, g24, g25] 7 7 26
      [s0 ||| g2, s1 ||| g3, s2 ||| g4, s3 ||| g5, s4 ||| g6, s5, s6, s7, s8, s9, s10, s11, s12, s13, s14, s15, s16, s17, s18, s19, s20, s21, s22, s23, s24, s25, s26, s27 ||| g21, s28 ||| g22, s29 ||| g23, s30 ||| g24, s31 ||| g25] := rfl
  have h6 : signLoop [g0, g1, g2, g3, g4, g5, g6, g7, g8, g9, g10, g11, g12, g13, g14, g15, g16, g17, g18, g19, g20, g21, g22, g23, g24, g25] 7 7 26
      [s0 ||| g2, s1 ||| g3, s2 ||| g4, s3 ||| g5, s4 ||| g6, s5, s6, s7, s8, s9, s10, s11, s12, s13, s14, s15, s16, s17, s18, s19, s20, s21, s22, s23, s24, s25, s26, s27 ||| g21, s28 ||| g22, s29 ||| g23, s30 ||| g24, s31 ||| g25] =
      signLoop [g0, g1, g2, g3, g4, g5, g6, g7, g8, g9, g10, g11, g12, g13, g14, g15, g16, g17, g18, g19, g20, g21, g22, g23, g24, g25] 6 8 25
      [s0 ||| g2, s1 ||| g3, s2 ||| g4, s3 ||| g5, s4 ||| g6, s5 ||| g7, s6, s7, s8, s9, s10, s11, s12, s13, s14, s15, s16, s17, s18, s19, s20, s21, s22, s23, s24, s25, s26 ||| g20, s27 ||| g21, s28 ||| g22, s29 ||| g23, s30 ||| g24, s31 ||| g25] := rfl
  have h7 : signLoop [g0, g1, g2, g3, g4, g5, g6, g7, g8, g9, g10, g11, g12, g13, g14, g15, g16, g17, g18, g19, g20, g21, g22, g23, g24, g25] 6 8 25
      [s0 ||| g2, s1 ||| g3, s2 ||| g4, s3 ||| g5, s4 ||| g6, s5 ||| g7, s6, s7, s8, s9, s10, s11, s12, s13, s14, s15, s16, s17, s18, s19, s20, s21, s22, s23, s24, s25, s26 ||| g20, s27 ||| g21, s28 ||| g22, s29 ||| g23, s30 ||| g24, s31 ||| g25] =
      signLoop [g0, g1, g2, g3, g4, g5, g6, g7, g8, g9, g10, g11, g12, g13, g14, g15, g16, g17, g18, g19, g20, g21, g22, g23, g24, g25] 5 9 24
      [s0 ||| g2, s1 ||| g3, s2 ||| g4, s3 ||| g5, s4 ||| g6, s5 ||| g7, s6 ||| g8, s7, s8, s9, s10, s11, s12, s13, s14, s15, s16, s17, s18, s19, s20, s21, s22, s23, s24, s25 ||| g19, s26 ||| g20, s27 ||| g21, s28 ||| g22, s29 ||| g23, s30 ||| g24, s31 ||| g25] := rfl
  have h8 : signLoop [g0, g1, g2, g3, g4, g5, g6, g7, g8, g9, g10, g11, g12, g13, g14, g15, g16, g17, g18, g19, g20, g21, g22, g23, g24, g25] 5 9 24
      [s0 ||| g2, s1 ||| g3, s2 ||| g4, s3 ||| g5, s4 ||| g6, s5 ||| g7, s6 ||| g8, s7, s8, s9, s10, s11, s12, s13, s14, s15, s16, s17, s18, s19, s20, s21, s22, s23, s24, s25 ||| g19, s26 ||| g20, s27 ||| g21, s28 ||| g22, s29 ||| g23, s30 ||| g24, s31 ||| g25] =
      signLoop [g0, g1, g2, g3, g4, g5, g6, g7, g8, g9, g10, g11, g12, g13, g14, g15, g16, g17, g18, g19, g20, g21, g22, g23, g24, g25] 4 10 23
      [s0 ||| g2, s1 ||| g3, s2 ||| g4, s3 ||| g5, s4 ||| g6, s5 ||| g7, s6 ||| g8, s7 ||| g9, s8, s9, s10, s11, s12, s13, s14, s15, s16, s17, s18, s19, s20, s21, s22, s23, s24 ||| g18, s25 ||| g19, s26 ||| g20, s27 ||| g21, s28 ||| g22, s29 ||| g23, s30 ||| g24, s31 ||| g25] := rfl
  have h9 : signLoop [g0, g1, g2, g3, g4, g5, g6, g7, g8, g9, g10, g11, g12, g13, g14, g15, g16, g17, g18, g19, g20, g21, g22, g23, g24, g25] 4 10 23
      [s0 ||| g2, s1 ||| g3, s2 ||| g4, s3 ||| g5, s4 ||| g6, s5 ||| g7, s6 ||| g8, s7 ||| g9, s8, s9, s10, s11, s12, s13, s14, s15, s16, s17, s18, s19, s20, s21, s22, s23, s24 ||| g18, s25 ||| g19, s26 ||| g20, s27 ||| g21, s28 ||| g22, s29 ||| g23, s30 ||| g24, s31 ||| g25] =
      signLoop [g0, g1, g2, g3, g4, g5, g6, g7, g8, g9, g10, g11, g12, g13, g14, g15, g16, g17, g18, g19, g20, g21, g22, g23, g24, g25] 3 11 22
      [s0 ||| g2, s1 ||| g3, s2 ||| g4, s3 ||| g5, s4 ||| g6, s5 ||| g7, s6 ||| g8, s7 ||| g9, s8 ||| g10, s9, s10, s11, s12, s13, s14, s15, s16, s17, s18, s19, s20, s21, s22, s23 ||| g17, s24 ||| g18, s25 ||| g19, s26 ||| g20, s27 ||| g21, s28 ||| g22, s29 ||| g23, s30 ||| g24, s31 ||| g25] := rfl
  have h10 : signLoop [g0, g1, g2, g3, g4, g5, g6, g7, g8, g9, g10, g11, g12, g13, g14, g15, g16, g17, g18, g19, g20, g21, g22, g23, g24, g25] 3 11 22
      [s0 ||| g2, s1 ||| g3, s2 ||| g4, s3 ||| g5, s4 ||| g6, s5 ||| g7, s6 ||| g8, s7 ||| g9, s8 ||| g10, s9, s10, s11, s12, s13, s14, s15, s16, s17, s18, s19, s20, s21, s22, s23 ||| g17, s24 ||| g18, s25 ||| g19, s26 ||| g20, s27 ||| g21, s28 ||| g22, s29 ||| g23, s30 ||| g24, s31 ||| g25] =
      signLoop [g0, g1, g2, g3, g4, g5, g6, g7, g8, g9, g10, g11, g12, g13, g14, g15, g16, g17, g18, g19, g20, g21, g22, g23, g24, g25] 2 12 21
      [s0 ||| g2, s1 ||| g3, s2 ||| g4, s3 ||| g5, s4 ||| g6, s5 ||| g7, s6 ||| g8, s7 ||| g9, s8 ||| g10, s9 ||| g11, s10, s11, s12, s13, s14, s15, s16, s17, s18, s19, s20, s21, s22 ||| g16, s23 ||| g17, s24 ||| g18, s25 ||| g19, s26 ||| g20, s27 ||| g21, s28 ||| g22, s29 ||| g23, s30 ||| g24, s31 ||| g25] := rfl
  have h11 : signLoop [g0, g1, g2, g3, g4, g5, g6, g7, g8, g9, g10, g11, g12, g13, g14, g15, g16, g17, g18, g19, g20, g21, g22, g23, g24, g25] 2 12 21
      [s0 ||| g2, s1 ||| g3, s2 ||| g4, s3 ||| g5, s4 ||| g6, s5 ||| g7, s6 ||| g8, s7 ||| g9, s8 ||| g10, s9 ||| g11, s10, s11, s12, s13, s14, s15, s16, s17, s18, s19, s20, s21, s22 ||| g16, s23 ||| g17, s24 ||| g18, s25 ||| g19, s26 ||| g20, s27 ||| g21, s28 ||| g22, s29 ||| g23, s30 ||| g24, s31 ||| g25] =
      signLoop [g0, g1, g2, g3, g4, g5, g6, g7, g8, g9, g10, g11, g12, g13, g14, g15, g16, g17, g18, g19, g20, g21, g22, g23, g24, g25] 1 13 20
      [s0 ||| g2, s1 ||| g3, s2 ||| g4, s3 ||| g5, s4 ||| g6, s5 ||| g7, s6 ||| g8, s7 ||| g9, s8 ||| g10, s9 ||| g11, s10 ||| g12, s11, s12, s13, s14, s15, s16, s17, s18, s19, s20, s21 ||| g15, s22 ||| g16, s23 ||| g17, s24 ||| g18, s25 ||| g19, s26 ||| g20, s27 ||| g21, s28 ||| g22, s29 ||| g23, s30 ||| g24, s31 ||| g25] := rfl
  have h12 : signLoop [g0, g1, g2, g3, g4, g5, g6, g7, g8, g9, g10, g11, g12, g13, g14, g15, g16, g17, g18, g19, g20, g21, g22, g23, g24, g25] 1 13 20
      [s0 ||| g2, s1 ||| g3, s2 ||| g4, s3 ||| g5, s4 ||| g6, s5 ||| g7, s6 ||| g8, s7 ||| g9, s8 ||| g10, s9 ||| g11, s10 ||| g12, s11, s12, s13, s14, s15, s16, s17, s18, s19, s20, s21 ||| g15, s22 ||| g16, s23 ||| g17, s24 ||| g18, s25 ||| g19, s26 ||| g20, s27 ||| g21, s28 ||| g22, s29 ||| g23, s30 ||| g24, s31 ||| g25] =
      signLoop [g0, g1, g2, g3, g4, g5, g6, g7, g8, g9, g10, g11, g12, g13, g14, g15, g16, g17, g18, g19, g20, g21, g22, g23, g24, g25] 0 14 19
      [s0 ||| g2, s1 ||| g3, s2 ||| g4, s3 ||| g5, s4 ||| g6, s5 ||| g7, s6 ||| g8, s7 ||| g9, s8 ||| g10, s9 ||| g11, s10 ||| g12, s11 ||| g13, s12, s13, s14, s15, s16, s17, s18, s19, s20 ||| g14, s21 ||| g15, s22 ||| g16, s23 ||| g17, s24 ||| g18, s25 ||| g19, s26 ||| g20, s27 ||| g21, s28 ||| g22, s29 ||| g23, s30 ||| g24, s31 ||| g25] := rfl
  have h13 : signLoop [g0, g1, g2, g3, g4, g5, g6, g7, g8, g9, g10, g11, g12, g13, g14, g15, g16, g17, g18, g19, g20, g21, g22, g23, g24, g25] 0 14 19
      [s0 ||| g2, s1 ||| g3, s2 ||| g4, s3 ||| g5, s4 ||| g6, s5 ||| g7, s6 ||| g8, s7 ||| g9, s8 ||| g10, s9 ||| g11, s10 ||| g12, s11 ||| g13, s12, s13, s14, s15, s16, s17, s18, s19, s20 ||| g14, s21 ||| g15, s22 ||| g16, s23 ||| g17, s24 ||| g18, s25 ||| g19, s26 ||| g20, s27 ||| g21, s28 ||| g22, s29 ||| g23, s30 ||| g24, s31 ||| g25] =
      [s0 ||| g2, s1 ||| g3, s2 ||| g4, s3 ||| g5, s4 ||| g6, s5 ||| g7, s6 ||| g8, s7 ||| g9, s8 ||| g10, s9 ||| g11, s10 ||| g12, s11 ||| g13, s12, s13, s14, s15, s16, s17, s18, s19, s20 ||| g14, s21 ||| g15, s22 ||| g16, s23 ||| g17, s24 ||| g18, s25 ||| g19, s26 ||| g20, s27 ||| g21, s28 ||| g22, s29 ||| g23, s30 ||| g24, s31 ||| g25] := rfl
  rw [signSum_unfold, h1, h2, h3, h4, h5, h6, h7, h8, h9, h10, h11, h12, h13]
  rfl


theorem list_len26 (l : Bytes) (hl : l.length = 26) :
    ∃ a0 a1 a2 a3 a4 a5 a6 a7 a8 a9 a10 a11 a12 a13 a14 a15 a16 a17 a18 a19 a20 a21 a22 a23 a24 a25, l = [a0, a1, a2, a3, a4, a5, a6, a7, a8, a9, a10, a11, a12, a13, a14, a15, a16, a17, a18, a19, a20, a21, a22, a23, a24, a25] := by
  rcases l with _ | ⟨a0, l⟩
  · exfalso; simp only [List.length_nil, List.length_cons] at hl; omega
  rcases l with _ | ⟨a1, l⟩
  · exfalso; simp only [List.length_nil, List.length_cons] at hl; omega
  rcases l with _ | ⟨a2, l⟩
  · exfalso; simp only [List.length_nil, List.length_cons] at hl; omega
  rcases l with _ | ⟨a3, l⟩
  · exfalso; simp only [List.length_nil, List.length_cons] at hl; omega
  rcases l with _ | ⟨a4, l⟩
  · exfalso; simp only [List.length_nil, List.length_cons] at hl; omega
  rcases l with _ | ⟨a5, l⟩
  · exfalso; simp only [List.length_nil, List.length_cons] at hl; omega
  rcases l with _ | ⟨a6, l⟩
  · exfalso; simp only [List.length_nil, List.length_cons] at hl; omega
  rcases l with _ | ⟨a7, l⟩
  · exfalso; simp only [List.length_nil, List.length_cons] at hl; omega
  rcases l with _ | ⟨a8, l⟩
  · exfalso; simp only [List.length_nil, List.length_cons] at hl; omega
  rcases l with _ | ⟨a9, l⟩
  · exfalso; simp only [List.length_nil, List.length_cons] at hl; omega
  rcases l with _ | ⟨a10, l⟩
  · exfalso; simp only [List.length_nil, List.length_cons] at hl; omega
  rcases l with _ | ⟨a11, l⟩
  · exfalso; simp only [List.length_nil, List.length_cons] at hl; omega
  rcases l with _ | ⟨a12, l⟩
  · exfalso; simp only [List.length_nil, List.length_cons] at hl; omega
  rcases l with _ | ⟨a13, l⟩
  · exfalso; simp only [List.length_nil, List.length_cons] at hl; omega
  rcases l with _ | ⟨a14, l⟩
  · exfalso; simp only [List.length_nil, List.length_cons] at hl; omega
  rcases l with _ | ⟨a15, l⟩
  · exfalso; simp only [List.length_nil, List.length_cons] at hl; omega
  rcases l with _ | ⟨a16, l⟩
  · exfalso; simp only [List.length_nil, List.length_cons] at hl; omega
  rcases l with _ | ⟨a17, l⟩
  · exfalso; simp only [List.length_nil, List.length_cons] at hl; omega
  rcases l with _ | ⟨a18, l⟩
  · exfalso; simp only [List.length_nil, List.length_cons] at hl; omega
  rcases l with _ | ⟨a19, l⟩
  · exfalso; simp only [List.length_nil, List.length_cons] at hl; omega
  rcases l with _ | ⟨a20, l⟩
  · exfalso; simp only [List.length_nil, List.length_cons] at hl; omega
  rcases l with _ | ⟨a21, l⟩
  · exfalso; simp only [List.length_nil, List.length_cons] at hl; omega
  rcases l with _ | ⟨a22, l⟩
  · exfalso; simp only [List.length_nil, List.length_cons] at hl; omega
  rcases l with _ | ⟨a23, l⟩
  · exfalso; simp only [List.length_nil, List.length_cons] at hl; omega
  rcases l with _ | ⟨a24, l⟩
  · exfalso; simp only [List.length_nil, List.length_cons] at hl; omega
  rcases l with _ | ⟨a25, l⟩
  · exfalso; simp only [List.length_nil, List.length_cons] at hl; omega
  rcases l with _ | ⟨x, l⟩
  · exact ⟨a0, a1, a2, a3, a4, a5, a6, a7, a8, a9, a10, a11, a12, a13, a14, a15, a16, a17, a18, a19, a20, a21, a22, a23, a24, a25, rfl⟩
  · exfalso; simp only [List.length_nil, List.length_cons] at hl; omega

theorem list_len32 (l : Bytes) (hl : l.length = 32) :
    ∃ a0 a1 a2 a3 a4 a5 a6 a7 a8 a9 a10 a11 a12 a13 a14 a15 a16 a17 a18 a19 a20 a21 a22 a23 a24 a25 a26 a27 a28 a29 a30 a31, l = [a0, a1, a2, a3, a4, a5, a6, a7, a8, a9, a10, a11, a12, a13, a14, a15, a16, a17, a18, a19, a20, a21, a22, a23, a24, a25, a26, a27, a28, a29, a30, a31] := by
  rcases l with _ | ⟨a0, l⟩
  · exfalso; simp only [List.length_nil, List.length_cons] at hl; omega
  rcases l with _ | ⟨a1, l⟩
  · exfalso; simp only [List.length_nil, List.length_cons] at hl; omega
  rcases l with _ | ⟨a2, l⟩
  · exfalso; simp only [List.length_nil, List.length_cons] at hl; omega
  rcases l with _ | ⟨a3, l⟩
  · exfalso; simp only [List.length_nil, List.length_cons] at hl; omega
  rcases l with _ | ⟨a4, l⟩
  · exfalso; simp only [List.length_nil, List.length_cons] at hl; omega
  rcases l with _ | ⟨a5, l⟩
  · exfalso; simp only [List.length_nil, List.length_cons] at hl; omega
  rcases l with _ | ⟨a6, l⟩
  · exfalso; simp only [List.length_nil, List.length_cons] at hl; omega
  rcases l with _ | ⟨a7, l⟩
  · exfalso; simp only [List.length_nil, List.length_cons] at hl; omega
  rcases l with _ | ⟨a8, l⟩
  · exfalso; simp only [List.length_nil, List.length_cons] at hl; omega
  rcases l with _ | ⟨a9, l⟩
  · exfalso; simp only [List.length_nil, List.length_cons] at hl; omega
  rcases l with _ | ⟨a10, l⟩
  · exfalso; simp only [List.length_nil, List.length_cons] at hl; omega
  rcases l with _ | ⟨a11, l⟩
  · exfalso; simp only [List.length_nil, List.length_cons] at hl; omega
  rcases l with _ | ⟨a12, l⟩
  · exfalso; simp only [List.length_nil, List.length_cons] at hl; omega
  rcases l with _ | ⟨a13, l⟩
  · exfalso; simp only [List.length_nil, List.length_cons] at hl; omega
  rcases l with _ | ⟨a14, l⟩
  · exfalso; simp only [List.length_nil, List.length_cons] at hl; omega
  rcases l with _ | ⟨a15, l⟩
  · exfalso; simp only [List.length_nil, List.length_cons] at hl; omega
  rcases l with _ | ⟨a16, l⟩
  · exfalso; simp only [List.length_nil, List.length_cons] at hl; omega
  rcases l with _ | ⟨a17, l⟩
  · exfalso; simp only [List.length_nil, List.length_cons] at hl; omega
  rcases l with _ | ⟨a18, l⟩
  · exfalso; simp only [List.length_nil, List.length_cons] at hl; omega
  rcases l with _ | ⟨a19, l⟩
  · exfalso; simp only [List.length_nil, List.length_cons] at hl; omega
  rcases l with _ | ⟨a20, l⟩
  · exfalso; simp only [List.length_nil, List.length_cons] at hl; omega
  rcases l with _ | ⟨a21, l⟩
  · exfalso; simp only [List.length_nil, List.length_cons] at hl; omega
  rcases l with _ | ⟨a22, l⟩
  · exfalso; simp only [List.length_nil, List.length_cons] at hl; omega
  rcases l with _ | ⟨a23, l⟩
  · exfalso; simp only [List.length_nil, List.length_cons] at hl; omega
  rcases l with _ | ⟨a24, l⟩
  · exfalso; simp only [List.length_nil, List.length_cons] at hl; omega
  rcases l with _ | ⟨a25, l⟩
  · exfalso; simp only [List.length_nil, List.length_cons] at hl; omega
  rcases l with _ | ⟨a26, l⟩
  · exfalso; simp only [List.length_nil, List.length_cons] at hl; omega
  rcases l with _ | ⟨a27, l⟩
  · exfalso; simp only [List.length_nil, List.length_cons] at hl; omega
  rcases l with _ | ⟨a28, l⟩
  · exfalso; simp only [List.length_nil, List.length_cons] at hl; omega
  rcases l with _ | ⟨a29, l⟩
  · exfalso; simp only [List.length_nil, List.length_cons] at hl; omega
  rcases l with _ | ⟨a30, l⟩
  · exfalso; simp only [List.length_nil, List.length_cons] at hl; omega
  rcases l with _ | ⟨a31, l⟩
  · exfalso; simp only [List.length_nil, List.length_cons] at hl; omega
  rcases l with _ | ⟨x, l⟩
  · exact ⟨a0, a1, a2, a3, a4, a5, a6, a7, a8, a9, a10, a11, a12, a13, a14, a15, a16, a17, a18, a19, a20, a21, a22, a23, a24, a25, a26, a27, a28, a29, a30, a31, rfl⟩
  · exfalso; simp only [List.length_nil, List.length_cons] at hl; omega

/-! ## Claim C2 (corrected) -/

/-- C2 counterexample: the claim says only GUID bytes 0-13 are folded into the
digest.  Take a GUID that is zero on bytes 0-13 but has byte 25 equal to 255:
under the claim every OR-fold is with a zero byte, so the signature would be
the plain SHA-256 hex digest; the code however folds GUID byte 25 into digest
byte 31, so the signature differs. -/
theorem c2_counterexample :
    (zeroGuid.set 25 255).length = 26 ∧ ([120] : Bytes) ≠ [] ∧
      (∀ k : Nat, k < 14 → (zeroGuid.set 25 255).getD k 0 = 0) ∧
      Sign (zeroGuid.set 25 255) [120] ≠ some (hexEncode (sha256 [120])) := by
  refine ⟨rfl, by decide, by decide, by decide⟩

/-- C2 (amended): for a 26-byte GUID `g` and non-empty `d`, `Sign` hex-encodes
the OR-folded SHA-256 digest, and the folding touches exactly these positions:
digest bytes 0-11 are ORed with GUID bytes 2-13 (forward), digest bytes 12-13
with the prefix bytes 0-1, digest bytes 20-31 with GUID bytes 14-25 (reverse,
`digest[j] |= g[j-6]`), and digest bytes 14-19 are unchanged. -/
theorem c2_sign_fold (g d : Bytes) (hg : g.length = 26) (hd : d ≠ []) :
    Sign g d = some (hexEncode (signSum g (sha256 d))) ∧
    (∀ s : Bytes, s.length = 32 →
      ((signSum g s).length = 32 ∧
       (∀ k : Nat, k < 12 → (signSum g s).getD k 0 = s.getD k 0 ||| g.getD (k + 2) 0) ∧
       (signSum g s).getD 12 0 = s.getD 12 0 ||| g.getD 0 0 ∧
       (signSum g s).getD 13 0 = s.getD 13 0 ||| g.getD 1 0 ∧
       (∀ k : Nat, 14 ≤ k → k < 20 → (signSum g s).getD k 0 = s.getD k 0) ∧
       (∀ k : Nat, 20 ≤ k → k < 32 →
         (signSum g s).getD k 0 = s.getD k 0 ||| g.getD (k - 6) 0))) := by
  obtain ⟨g0, g1, g2, g3, g4, g5, g6, g7, g8, g9, g10, g11, g12, g13, g14, g15, g16, g17, g18, g19, g20, g21, g22, g23, g24, g25, rfl⟩ := list_len26 g hg
  constructor
  · unfold Sign
    rw [if_neg hd]
  · intro s hs
    obtain ⟨s0, s1, s2, s3, s4, s5, s6, s7, s8, s9, s10, s11, s12, s13, s14, s15, s16, s17, s18, s19, s20, s21, s22, s23, s24, s25, s26, s27, s28, s29, s30, s31, rfl⟩ := list_len32 s hs
    rw [signSum_explicit]
    refine ⟨rfl, ?_, rfl, rfl, ?_, ?_⟩
    · intro k hk
      interval_cases k <;> rfl
    · intro k hk1 hk2
      interval_cases k <;> rfl
    · intro k hk1 hk2
      interval_cases k <;> rfl

theorem c2_sign_fold_witness :
    ([120] : Bytes) ≠ [] ∧
      Sign zeroGuid [120] = some (hexEncode (signSum zeroGuid (sha256 [120]))) :=
  ⟨by decide, (c2_sign_fold zeroGuid [120] rfl (by decide)).1⟩

/-! ## Claim C3 -/

/-- C3: verifying a freshly produced signature always succeeds:
`DidSign g (Sign g d) = true` for every 26-byte GUID and non-empty data. -/
theorem c3_didsign_sign (g d : Bytes) (hg : g.length = 26) (hb : ∀ b ∈ g, b < 256)
    (hd : d ≠ []) (out : Bytes) (hout : Sign g d = some out) :
    DidSign g out = true := by
  have hsign : Sign g d = some (hexEncode (signSum g (sha256 d))) := by
    unfold Sign
    rw [if_neg hd]
  have hsome : some out = some (hexEncode (signSum g (sha256 d))) := hout.symm.trans hsign
  injection hsome with hout2
  rw [hout2]
  have hs32 := sha256_length d
  have hsb := sha256_bytes_lt d
  obtain ⟨g0, g1, g2, g3, g4, g5, g6, g7, g8, g9, g10, g11, g12, g13, g14, g15, g16, g17, g18, g19, g20, g21, g22, g23, g24, g25, rfl⟩ := list_len26 g hg
  obtain ⟨s0, s1, s2, s3, s4, s5, s6, s7, s8, s9, s10, s11, s12, s13, s14, s15, s16, s17, s18, s19, s20, s21, s22, s23, s24, s25, s26, s27, s28, s29, s30, s31, hsval⟩ := list_len32 (sha256 d) hs32
  rw [hsval]
  have hbg0 : g0 < 256 := hb g0 (by simp)
  have hbg1 : g1 < 256 := hb g1 (by simp)
  have hbg2 : g2 < 256 := hb g2 (by simp)
  have hbg3 : g3 < 256 := hb g3 (by simp)
  have hbg4 : g4 < 256 := hb g4 (by simp)
  have hbg5 : g5 < 256 := hb g5 (by simp)
  have hbg6 : g6 < 256 := hb g6 (by simp)
  have hbg7 : g7 < 256 := hb g7 (by simp)
  have hbg8 : g8 < 256 := hb g8 (by simp)
  have hbg9 : g9 < 256 := hb g9 (by simp)
  have hbg10 : g10 < 256 := hb g10 (by simp)
  have hbg11 : g11 < 256 := hb g11 (by simp)
  have hbg12 : g12 < 256 := hb g12 (by simp)
  have hbg13 : g13 < 256 := hb g13 (by simp)
  have hbg14 : g14 < 256 := hb g14 (by simp)
  have hbg15 : g15 < 256 := hb g15 (by simp)
  have hbg16 : g16 < 256 := hb g16 (by simp)
  have hbg17 : g17 < 256 := hb g17 (by simp)
  have hbg18 : g18 < 256 := hb g18 (by simp)
  have hbg19 : g19 < 256 := hb g19 (by simp)
  have hbg20 : g20 < 256 := hb g20 (by simp)
  have hbg21 : g21 < 256 := hb g21 (by simp)
  have hbg22 : g22 < 256 := hb g22 (by simp)
  have hbg23 : g23 < 256 := hb g23 (by simp)
  have hbg24 : g24 < 256 := hb g24 (by simp)
  have hbg25 : g25 < 256 := hb g25 (by simp)
  have hbs0 : s0 < 256 := hsb s0 (by rw [hsval]; simp)
  have hbs1 : s1 < 256 := hsb s1 (by rw [hsval]; simp)
  have hbs2 : s2 < 256 := hsb s2 (by rw [hsval]; simp)
  have hbs3 : s3 < 256 := hsb s3 (by rw [hsval]; simp)
  have hbs4 : s4 < 256 := hsb s4 (by rw [hsval]; simp)
  have hbs5 : s5 < 256 := hsb s5 (by rw [hsval]; simp)
  have hbs6 : s6 < 256 := hsb s6 (by rw [hsval]; simp)
  have hbs7 : s7 < 256 := hsb s7 (by rw [hsval]; simp)
  have hbs8 : s8 < 256 := hsb s8 (by rw [hsval]; simp)
  have hbs9 : s9 < 256 := hsb s9 (by rw [hsval]; simp)
  have hbs10 : s10 < 256 := hsb s10 (by rw [hsval]; simp)
  have hbs11 : s11 < 256 := hsb s11 (by rw [hsval]; simp)
  have hbs12 : s12 < 256 := hsb s12 (by rw [hsval]; simp)
  have hbs13 : s13 < 256 := hsb s13 (by rw [hsval]; simp)
  have hbs14 : s14 < 256 := hsb s14 (by rw [hsval]; simp)
  have hbs15 : s15 < 256 := hsb s15 (by rw [hsval]; simp)
  have hbs16 : s16 < 256 := hsb s16 (by rw [hsval]; simp)
  have hbs17 : s17 < 256 := hsb s17 (by rw [hsval]; simp)
  have hbs18 : s18 < 256 := hsb s18 (by rw [hsval]; simp)
  have hbs19 : s19 < 256 := hsb s19 (by rw [hsval]; simp)
  have hbs20 : s20 < 256 := hsb s20 (by rw [hsval]; simp)
  have hbs21 : s21 < 256 := hsb s21 (by rw [hsval]; simp)
  have hbs22 : s22 < 256 := hsb s22 (by rw [hsval]; simp)
  have hbs23 : s23 < 256 := hsb s23 (by rw [hsval]; simp)
  have hbs24 : s24 < 256 := hsb s24 (by rw [hsval]; simp)
  have hbs25 : s25 < 256 := hsb s25 (by rw [hsval]; simp)
  have hbs26 : s26 < 256 := hsb s26 (by rw [hsval]; simp)
  have hbs27 : s27 < 256 := hsb s27 (by rw [hsval]; simp)
  have hbs28 : s28 < 256 := hsb s28 (by rw [hsval]; simp)
  have hbs29 : s29 < 256 := hsb s29 (by rw [hsval]; simp)
  have hbs30 : s30 < 256 := hsb s30 (by rw [hsval]; simp)
  have hbs31 : s31 < 256 := hsb s31 (by rw [hsval]; simp)
  rw [signSum_explicit]
  have hfold : ∀ b ∈ ([s0 ||| g2, s1 ||| g3, s2 ||| g4, s3 ||| g5, s4 ||| g6, s5 ||| g7, s6 ||| g8, s7 ||| g9, s8 ||| g10, s9 ||| g11, s10 ||| g12, s11 ||| g13, s12 ||| g0, s13 ||| g1, s14, s15, s16, s17, s18, s19, s20 ||| g14, s21 ||| g15, s22 ||| g16, s23 ||| g17, s24 ||| g18, s25 ||| g19, s26 ||| g20, s27 ||| g21, s28 ||| g22, s29 ||| g23, s30 ||| g24, s31 ||| g25] : Bytes), b < 256 := by
    intro b hbm
    simp only [List.mem_cons, List.not_mem_nil, or_false] at hbm
    rcases hbm with rfl | rfl | rfl | rfl | rfl | rfl | rfl | rfl | rfl | rfl | rfl | rfl | rfl | rfl | rfl | rfl | rfl | rfl | rfl | rfl | rfl | rfl | rfl | rfl | rfl | rfl | rfl | rfl | rfl | rfl | rfl | rfl
    all_goals first
      | assumption
      | exact lor_lt_256 _ _ (by assumption) (by assumption)
  rw [didSign_some _ _ _ (hexDecode_hexEncode _ hfold)]
  rw [if_neg (by simp)]
  rw [if_neg (by simp [land_lor_self])]
  rw [if_neg (by simp [land_lor_self])]
  apply didSignLoop_true
  · intro m hm
    interval_cases m <;> first
      | exact land_lor_self _ _
      | simp [land_lor_self]
  · intro m hm
    interval_cases m <;> first
      | exact land_lor_self _ _
      | simp [land_lor_self]

theorem c3_didsign_sign_witness :
    ([120] : Bytes) ≠ [] ∧
      DidSign (zeroGuid.set 25 255)
        (hexEncode (signSum (zeroGuid.set 25 255) (sha256 [120]))) = true :=
  ⟨by decide,
    c3_didsign_sign (zeroGuid.set 25 255) [120] rfl (by decide) (by decide) _ rfl⟩

/-! ## Claim C6 -/

/-- C6: Sign and DidSign never raise errors: `Sign g d` is absent (`none`)
exactly when `d` is empty, and `DidSign` returns `false` for every input that
is not valid hex or whose hex decoding is not exactly 32 bytes. -/
theorem c6_no_errors (g d s : Bytes) :
    ((Sign g d).isNone ↔ d = []) ∧
    (hexDecode s = none → DidSign g s = false) ∧
    (∀ bs : Bytes, hexDecode s = some bs → bs.length ≠ 32 → DidSign g s = false) := by
  refine ⟨?_, ?_, ?_⟩
  · unfold Sign
    by_cases hde : d = []
    · simp [hde]
    · simp [hde]
  · intro h
    unfold DidSign
    rw [h]
  · intro bs h hlen
    rw [didSign_some g s bs h, if_pos hlen]

theorem c6_no_errors_witness :
    ((Sign zeroGuid []).isNone ↔ ([] : Bytes) = []) ∧
      DidSign zeroGuid [103] = false ∧ DidSign zeroGuid [48, 48] = false :=
  ⟨(c6_no_errors zeroGuid [] [103]).1,
   (c6_no_errors zeroGuid [] [103]).2.1 (by decide),
   (c6_no_errors zeroGuid [] [48, 48]).2.2 [0] (by decide) (by decide)⟩

/-! ## Claim C10 -/

/-- C10: the all-zero GUID "did sign" everything: `DidSign` returns `true` on
every input that hex-decodes to exactly 32 bytes, regardless of content — the
subset-of-bits check `sum[i] & 0 == 0` is vacuous on every position. -/
theorem c10_zero_guid_signs_all (s bs : Bytes) (hdec : hexDecode s = some bs)
    (hlen : bs.length = 32) : DidSign zeroGuid s = true := by
  have hz : ∀ i : Nat, zeroGuid.getD i 0 = 0 := by
    intro i
    unfold zeroGuid
    rw [List.getD_eq_getElem?_getD, List.getElem?_replicate]
    split <;> rfl
  rw [didSign_some _ _ _ hdec, if_neg (by omega), hz 0, hz 1]
  rw [if_neg (by simp), if_neg (by simp)]
  apply didSignLoop_true
  · intro m hm
    rw [hz (2 + m)]
    simp
  · intro m hm
    rw [hz (31 - m - 6)]
    simp

theorem c10_zero_guid_signs_all_witness :
    hexDecode (List.replicate 64 48) = some (List.replicate 32 0) ∧
      DidSign zeroGuid (List.replicate 64 48) = true :=
  ⟨by decide, c10_zero_guid_signs_all (List.replicate 64 48) (List.replicate 32 0)
    (by decide) (by decide)⟩


/-! ## Claim C1 -/

/-- C1: round trip.  A GUID built by the setter calls from in-range values
(prefix bytes set directly, a timestamp whose millisecond value lies in
`[0, 36^8)`, and fingerprint / counters / random in `[0, 1679616)`) parses
back from its 26-character text form to the identical 26-byte value:
`Parse (String g) = ok g`. -/
theorem c1_parse_string_roundtrip (p1 p2 : Nat) (ms fp ic dc rd : Int)
    (hp1 : p1 < 256) (hp2 : p2 < 256)
    (hms0 : 0 ≤ ms) (hms1 : ms < 36 ^ 8)
    (hfp0 : 0 ≤ fp) (hfp1 : fp < 1679616)
    (hic0 : 0 ≤ ic) (hic1 : ic < 1679616)
    (hdc0 : 0 ≤ dc) (hdc1 : dc < 1679616)
    (hrd0 : 0 ≤ rd) (hrd1 : rd < 1679616) :
    Parse (GUID.String (SetRandom (SetCounters (SetFingerprint
      (SetTime ((zeroGuid.set 0 p1).set 1 p2) (ms * 1000000)) fp) ic dc) rd)) =
    .ok (SetRandom (SetCounters (SetFingerprint
      (SetTime ((zeroGuid.set 0 p1).set 1 p2) (ms * 1000000)) fp) ic dc) rd) := by
  have h36_8i : (36 : Int) ^ 8 = 2821109907456 := by norm_num
  have h36_8n : (36 : Nat) ^ 8 = 2821109907456 := by norm_num
  have h36_4n : (36 : Nat) ^ 4 = 1679616 := by norm_num
  have h128_8 : (128 : Nat) ^ 8 = 72057594037927936 := by norm_num
  have h2_63 : (2 : Nat) ^ 63 = 9223372036854775808 := by norm_num
  have h2_31 : (2 : Int) ^ 31 = 2147483648 := by norm_num
  have htdiv : (ms * 1000000).tdiv 1000000 = ms := Int.mul_tdiv_cancel ms (by norm_num)
  have hffp : filter fp = fp := filter_eq_of_range fp hfp0 hfp1
  have hfic : filter ic = ic := filter_eq_of_range ic hic0 hic1
  have hfdc : filter dc = dc := filter_eq_of_range dc hdc0 hdc1
  have hfrd : filter rd = rd := filter_eq_of_range rd hrd0 hrd1
  have hzms : zigzag ms < 128 ^ 8 := by
    rw [zigzag_of_nonneg ms hms0, h128_8]
    omega
  have hzfp : zigzag fp < 128 ^ 8 := by
    rw [← hffp]
    exact lt_of_lt_of_le (zigzag_filter_lt fp) (by norm_num)
  have hzic : zigzag ic < 128 ^ 8 := by
    rw [← hfic]
    exact lt_of_lt_of_le (zigzag_filter_lt ic) (by norm_num)
  have hzdc : zigzag dc < 128 ^ 8 := by
    rw [← hfdc]
    exact lt_of_lt_of_le (zigzag_filter_lt dc) (by norm_num)
  have hzrd : zigzag rd < 128 ^ 8 := by
    rw [← hfrd]
    exact lt_of_lt_of_le (zigzag_filter_lt rd) (by norm_num)
  have hlms : (putVarint ms).length ≤ 8 :=
    putVarint_length_le ms 8 (by norm_num) (by norm_num) hzms
  have hlfp : (putVarint fp).length ≤ 4 := by
    rw [← hffp]
    exact filter_field_len fp
  have hlic : (putVarint ic).length ≤ 4 := by
    rw [← hfic]
    exact filter_field_len ic
  have hldc : (putVarint dc).length ≤ 4 := by
    rw [← hfdc]
    exact filter_field_len dc
  have hlrd : (putVarint rd).length ≤ 4 := by
    rw [← hfrd]
    exact filter_field_len rd
  have hsetters : SetRandom (SetCounters (SetFingerprint
      (SetTime ((zeroGuid.set 0 p1).set 1 p2) (ms * 1000000)) fp) ic dc) rd =
      writeAt (writeAt (writeAt (writeAt (writeAt ((zeroGuid.set 0 p1).set 1 p2)
        2 (putVarint ms)) 10 (putVarint fp)) 14 (putVarint ic)) 18 (putVarint dc))
        22 (putVarint rd) := by
    unfold SetRandom SetCounters SetFingerprint SetTime
    rw [htdiv, hffp, hfic, hfdc, hfrd]
  have hnf := build_nf p1 p2 (putVarint ms) (putVarint fp) (putVarint ic) (putVarint dc)
    (putVarint rd) hlms hlfp hlic hldc hlrd
  have hstr := string_nf p1 p2 (padF (putVarint ms) 8) (padF (putVarint fp) 4)
    (padF (putVarint ic) 4) (padF (putVarint dc) 4) (padF (putVarint rd) 4)
    (padF_length _ 8 hlms) (padF_length _ 4 hlfp) (padF_length _ 4 hlic)
    (padF_length _ 4 hldc) (padF_length _ 4 hlrd)
  have hV1 : varintVal (padF (putVarint ms) 8) = ms := varintVal_putVarint ms _ hzms
  have hV2 : varintVal (padF (putVarint fp) 4) = fp := varintVal_putVarint fp _ hzfp
  have hV3 : varintVal (padF (putVarint ic) 4) = ic := varintVal_putVarint ic _ hzic
  have hV4 : varintVal (padF (putVarint dc) 4) = dc := varintVal_putVarint dc _ hzdc
  have hV5 : varintVal (padF (putVarint rd) 4) = rd := varintVal_putVarint rd _ hzrd
  rw [hV1, hV2, hV3, hV4, hV5, formatInt36_nonneg ms hms0, formatInt36_nonneg fp hfp0,
    formatInt36_nonneg ic hic0, formatInt36_nonneg dc hdc0,
    formatInt36_nonneg rd hrd0] at hstr
  have hlenS1 : (leftPad (fmtNat36 ms.toNat) 8).length = 8 :=
    leftPad_length _ 8 (fmtNat36F_length_le 16 _ 8 (by norm_num) (by omega) (by norm_num))
  have hlenS2 : (leftPad (fmtNat36 fp.toNat) 4).length = 4 :=
    leftPad_length _ 4 (fmtNat36F_length_le 16 _ 4 (by norm_num) (by omega) (by norm_num))
  have hlenS3 : (leftPad (fmtNat36 ic.toNat) 4).length = 4 :=
    leftPad_length _ 4 (fmtNat36F_length_le 16 _ 4 (by norm_num) (by omega) (by norm_num))
  have hlenS4 : (leftPad (fmtNat36 dc.toNat) 4).length = 4 :=
    leftPad_length _ 4 (fmtNat36F_length_le 16 _ 4 (by norm_num) (by omega) (by norm_num))
  have hlenS5 : (leftPad (fmtNat36 rd.toNat) 4).length = 4 :=
    leftPad_length _ 4 (fmtNat36F_length_le 16 _ 4 (by norm_num) (by omega) (by norm_num))
  have hP1 : parseInt36 (leftPad (fmtNat36 ms.toNat) 8) = some ms := by
    have h := parseInt36_leftPad_fmt ms.toNat 8 (by norm_num) (by norm_num)
      (by omega) (by omega)
    rw [Int.toNat_of_nonneg hms0] at h
    exact h
  have hP2 : parseInt36 (leftPad (fmtNat36 fp.toNat) 4) = some fp := by
    have h := parseInt36_leftPad_fmt fp.toNat 4 (by norm_num) (by norm_num)
      (by omega) (by omega)
    rw [Int.toNat_of_nonneg hfp0] at h
    exact h
  have hP3 : parseInt36 (leftPad (fmtNat36 ic.toNat) 4) = some ic := by
    have h := parseInt36_leftPad_fmt ic.toNat 4 (by norm_num) (by norm_num)
      (by omega) (by omega)
    rw [Int.toNat_of_nonneg hic0] at h
    exact h
  have hP4 : parseInt36 (leftPad (fmtNat36 dc.toNat) 4) = some dc := by
    have h := parseInt36_leftPad_fmt dc.toNat 4 (by norm_num) (by norm_num)
      (by omega) (by omega)
    rw [Int.toNat_of_nonneg hdc0] at h
    exact h
  have hP5 : parseInt36 (leftPad (fmtNat36 rd.toNat) 4) = some rd := by
    have h := parseInt36_leftPad_fmt rd.toNat 4 (by norm_num) (by norm_num)
      (by omega) (by omega)
    rw [Int.toNat_of_nonneg hrd0] at h
    exact h
  have hlen : ((p1 :: p2 :: (leftPad (fmtNat36 ms.toNat) 8 ++
      (leftPad (fmtNat36 fp.toNat) 4 ++ (leftPad (fmtNat36 ic.toNat) 4 ++
        (leftPad (fmtNat36 dc.toNat) 4 ++ leftPad (fmtNat36 rd.toNat) 4))))) :
      Bytes).length = 26 := by
    simp only [List.length_cons, List.length_append, hlenS1, hlenS2, hlenS3, hlenS4, hlenS5]
  have hsl1 : sliceL (p1 :: p2 :: (leftPad (fmtNat36 ms.toNat) 8 ++
      (leftPad (fmtNat36 fp.toNat) 4 ++ (leftPad (fmtNat36 ic.toNat) 4 ++
        (leftPad (fmtNat36 dc.toNat) 4 ++ leftPad (fmtNat36 rd.toNat) 4))))) 2 10 =
      leftPad (fmtNat36 ms.toNat) 8 :=
    sliceL_mid' [p1, p2] _ _ 2 10 rfl (by rw [hlenS1])
  have hshape2 : (p1 :: p2 :: (leftPad (fmtNat36 ms.toNat) 8 ++
      (leftPad (fmtNat36 fp.toNat) 4 ++ (leftPad (fmtNat36 ic.toNat) 4 ++
        (leftPad (fmtNat36 dc.toNat) 4 ++ leftPad (fmtNat36 rd.toNat) 4)))) : Bytes) =
      ([p1, p2] ++ leftPad (fmtNat36 ms.toNat) 8) ++
        (leftPad (fmtNat36 fp.toNat) 4 ++ (leftPad (fmtNat36 ic.toNat) 4 ++
          (leftPad (fmtNat36 dc.toNat) 4 ++ leftPad (fmtNat36 rd.toNat) 4))) := by
    simp [List.append_assoc]
  have hsl2 : sliceL (p1 :: p2 :: (leftPad (fmtNat36 ms.toNat) 8 ++
      (leftPad (fmtNat36 fp.toNat) 4 ++ (leftPad (fmtNat36 ic.toNat) 4 ++
        (leftPad (fmtNat36 dc.toNat) 4 ++ leftPad (fmtNat36 rd.toNat) 4))))) 10 14 =
      leftPad (fmtNat36 fp.toNat) 4 := by
    rw [hshape2]
    exact sliceL_mid' _ _ _ 10 14 (by simp [hlenS1]) (by rw [hlenS2])
  have hshape3 : (p1 :: p2 :: (leftPad (fmtNat36 ms.toNat) 8 ++
      (leftPad (fmtNat36 fp.toNat) 4 ++ (leftPad (fmtNat36 ic.toNat) 4 ++
        (leftPad (fmtNat36 dc.toNat) 4 ++ leftPad (fmtNat36 rd.toNat) 4)))) : Bytes) =
      (([p1, p2] ++ leftPad (fmtNat36 ms.toNat) 8) ++ leftPad (fmtNat36 fp.toNat) 4) ++
        (leftPad (fmtNat36 ic.toNat) 4 ++
          (leftPad (fmtNat36 dc.toNat) 4 ++ leftPad (fmtNat36 rd.toNat) 4)) := by
    simp [List.append_assoc]
  have hsl3 : sliceL (p1 :: p2 :: (leftPad (fmtNat36 ms.toNat) 8 ++
      (leftPad (fmtNat36 fp.toNat) 4 ++ (leftPad (fmtNat36 ic.toNat) 4 ++
        (leftPad (fmtNat36 dc.toNat) 4 ++ leftPad (fmtNat36 rd.toNat) 4))))) 14 18 =
      leftPad (fmtNat36 ic.toNat) 4 := by
    rw [hshape3]
    exact sliceL_mid' _ _ _ 14 18 (by simp [hlenS1, hlenS2]) (by rw [hlenS3])
  have hshape4 : (p1 :: p2 :: (leftPad (fmtNat36 ms.toNat) 8 ++
      (leftPad (fmtNat36 fp.toNat) 4 ++ (leftPad (fmtNat36 ic.toNat) 4 ++
        (leftPad (fmtNat36 dc.toNat) 4 ++ leftPad (fmtNat36 rd.toNat) 4)))) : Bytes) =
      ((([p1, p2] ++ leftPad (fmtNat36 ms.toNat) 8) ++ leftPad (fmtNat36 fp.toNat) 4) ++
          leftPad (fmtNat36 ic.toNat) 4) ++
        (leftPad (fmtNat36 dc.toNat) 4 ++ leftPad (fmtNat36 rd.toNat) 4) := by
    simp [List.append_assoc]
  have hsl4 : sliceL (p1 :: p2 :: (leftPad (fmtNat36 ms.toNat) 8 ++
      (leftPad (fmtNat36 fp.toNat) 4 ++ (leftPad (fmtNat36 ic.toNat) 4 ++
        (leftPad (fmtNat36 dc.toNat) 4 ++ leftPad (fmtNat36 rd.toNat) 4))))) 18 22 =
      leftPad (fmtNat36 dc.toNat) 4 := by
    rw [hshape4]
    exact sliceL_mid' _ _ _ 18 22 (by simp [hlenS1, hlenS2, hlenS3]) (by rw [hlenS4])
  have hshape5 : (p1 :: p2 :: (leftPad (fmtNat36 ms.toNat) 8 ++
      (leftPad (fmtNat36 fp.toNat) 4 ++ (leftPad (fmtNat36 ic.toNat) 4 ++
        (leftPad (fmtNat36 dc.toNat) 4 ++ leftPad (fmtNat36 rd.toNat) 4)))) : Bytes) =
      (((([p1, p2] ++ leftPad (fmtNat36 ms.toNat) 8) ++ leftPad (fmtNat36 fp.toNat) 4) ++
          leftPad (fmtNat36 ic.toNat) 4) ++ leftPad (fmtNat36 dc.toNat) 4) ++
        (leftPad (fmtNat36 rd.toNat) 4 ++ ([] : Bytes)) := by
    simp [List.append_assoc]
  have hsl5 : sliceL (p1 :: p2 :: (leftPad (fmtNat36 ms.toNat) 8 ++
      (leftPad (fmtNat36 fp.toNat) 4 ++ (leftPad (fmtNat36 ic.toNat) 4 ++
        (leftPad (fmtNat36 dc.toNat) 4 ++ leftPad (fmtNat36 rd.toNat) 4))))) 22 26 =
      leftPad (fmtNat36 rd.toNat) 4 := by
    rw [hshape5]
    exact sliceL_mid' _ _ _ 22 26 (by simp [hlenS1, hlenS2, hlenS3, hlenS4]) (by rw [hlenS5])
  have htofp : toInt32 fp = fp := toInt32_small fp (by omega) (by omega)
  have htoic : toInt32 ic = ic := toInt32_small ic (by omega) (by omega)
  have htodc : toInt32 dc = dc := toInt32_small dc (by omega) (by omega)
  have htord : toInt32 rd = rd := toInt32_small rd (by omega) (by omega)
  rw [hsetters, hnf, hstr]
  unfold Parse
  rw [if_neg (by rw [hlen]; exact fun h => h rfl)]
  simp only [List.getD_cons_zero, List.getD_cons_succ, hsl1, hsl2, hsl3, hsl4, hsl5,
    hP1, hP2, hP3, hP4, hP5, htofp, htoic, htodc, htord]
  rw [hsetters, hnf]

theorem c1_parse_string_roundtrip_witness :
    (120 : Nat) < 256 ∧
      Parse (GUID.String (SetRandom (SetCounters (SetFingerprint
        (SetTime ((zeroGuid.set 0 120).set 1 111) (1622222222222 * 1000000)) 2222)
          500 1000) 299792)) =
      .ok (SetRandom (SetCounters (SetFingerprint
        (SetTime ((zeroGuid.set 0 120).set 1 111) (1622222222222 * 1000000)) 2222)
          500 1000) 299792) :=
  ⟨by decide,
    c1_parse_string_roundtrip 120 111 1622222222222 2222 500 1000 299792
      (by decide) (by decide) (by decide) (by decide) (by decide) (by decide)
      (by decide) (by decide) (by decide) (by decide) (by decide) (by decide)⟩

end GuidSpec
